import Mathlib

/-!
# Verification of the Shopify Theme Sniffer backup engine

A shallow embedding of the backup engine of this repository
(`src/products/products.ts` — the `BackupEngine` class, `transformProduct`, the
`activeBackups` registry — and the store operations of `src/db.ts`), together
with theorems settling the specification's claims about it.

Modelling conventions:
* IndexedDB object stores become Lean lists of records; `put` is replace-by-key
  or append, `delete` filters by key, lookups are `find?` by key.
* `new Date().toISOString()` becomes an explicit clock counter threaded through
  the engine state; each draw yields `toString clock` and increments the clock.
* Asynchronous I/O is replaced by explicit schedules: a `script` of fetch
  outcomes (one entry per awaited `fetchPage` call, a `throwErr` entry standing
  for an awaited step that rejects) and a `sigs` list supplying the values of
  the cooperatively-checked `paused`/`cancelled` flags at each point the code
  reads them.
* `chrome.notifications.create` appends to a notification list; `delay(ms)`
  appends to a sleep list; the progress callback appends to a call list.
* `estimateStorefrontSize` (a `Blob` byte count) is an external computation and
  is passed in as an opaque parameter `est`.
-/

set_option maxHeartbeats 1000000

namespace Sniffer

/-! ## Data model (src/types.ts) -/

inductive BackupStatus
  | complete
  | partialS
  | inProgress
  | pausedS
  | never
  deriving DecidableEq, Repr

structure ProductImage where
  url : String
  alt : Option String
  width : Nat
  height : Nat
  deriving DecidableEq, Repr

structure ProductVariant where
  id : String
  title : String
  sku : String
  price : String
  compare_at_price : Option String
  inventory_policy : Option String
  weight : Option Int
  weight_unit : Option String
  option1 : Option String
  option2 : Option String
  option3 : Option String
  deriving DecidableEq, Repr

structure Product where
  id : String
  storefront_id : String
  shopify_id : String
  title : String
  handle : String
  description_html : String
  vendor : String
  product_type : String
  tags : List String
  images : List ProductImage
  variants : List ProductVariant
  created_at : String
  updated_at : String
  sniffer_updated_at : String
  removed_at : Option String
  deriving DecidableEq, Repr

structure Storefront where
  id : String
  domain : String
  last_backup_at : Option String
  backup_status : BackupStatus
  product_count : Nat
  size_bytes : Nat
  created_at : String
  deriving DecidableEq, Repr

structure BackupCursor where
  storefront_id : String
  cursor : Option String
  started_at : String
  products_fetched : Nat
  total_products : Option Nat
  deriving DecidableEq, Repr

inductive LogLevel
  | info
  | warn
  | error
  deriving DecidableEq, Repr

/-- Log entry (src/types.ts). The auto-increment `id` (assigned by the store)
and the free-form `detail` payload, which only carries diagnostic copies of
values modelled elsewhere, are omitted. -/
structure LogEntry where
  storefront_id : String
  timestamp : String
  level : LogLevel
  message : String
  deriving DecidableEq, Repr

/-! ## GraphQL response types (src/products/products.ts 432-494) -/

structure GqlMoney where
  amount : String
  currencyCode : String
  deriving DecidableEq, Repr

structure GqlSelectedOption where
  name : String
  value : String
  deriving DecidableEq, Repr

structure GqlVariantNode where
  id : String
  title : String
  sku : String
  price : GqlMoney
  compareAtPrice : Option GqlMoney
  weight : Option Int
  weightUnit : Option String
  selectedOptions : List GqlSelectedOption
  deriving DecidableEq, Repr

structure GqlImageNode where
  url : String
  altText : Option String
  width : Nat
  height : Nat
  deriving DecidableEq, Repr

/-- The `{ nodes: [...] }` connection wrapper. -/
structure GqlNodes (α : Type) where
  nodes : List α
  deriving DecidableEq, Repr

structure GqlProductNode where
  id : String
  title : String
  handle : String
  descriptionHtml : String
  vendor : String
  productType : String
  tags : List String
  createdAt : String
  updatedAt : String
  images : GqlNodes GqlImageNode
  variants : GqlNodes GqlVariantNode
  deriving DecidableEq, Repr

structure GqlPageInfo where
  hasNextPage : Bool
  endCursor : Option String
  deriving DecidableEq, Repr

structure GqlProductsConnection where
  pageInfo : GqlPageInfo
  nodes : List GqlProductNode
  deriving DecidableEq, Repr

structure GqlProductsData where
  products : GqlProductsConnection
  deriving DecidableEq, Repr

/-- One GraphQL error. `code` is `extensions?.code`; `none` covers both a
missing `extensions` object and a missing `code` field, which the code treats
identically (`e.extensions?.code === 'THROTTLED'`). -/
structure GqlError where
  message : String
  code : Option String
  deriving DecidableEq, Repr

structure GqlResponse where
  data : Option GqlProductsData
  errors : Option (List GqlError)
  deriving DecidableEq, Repr

/-! ## Transform (src/products/products.ts 538-584) -/

/-- JS `String.prototype.split` with a single-character separator. -/
def splitOnChar (sep : Char) (s : String) : List String :=
  let groups := s.data.foldr
    (fun c acc => if c = sep then [] :: acc else (c :: acc.headD []) :: acc.tail) [[]]
  groups.map fun cs => String.mk cs

/-- `parts[parts.length - 1]` (split never yields an empty array in JS). -/
def lastD (xs : List String) (d : String) : String :=
  match xs with
  | [] => d
  | [x] => x
  | _ :: rest => lastD rest d

/-- `extractShopifyId`: last `/`-separated component of the gid. -/
def extractShopifyId (gid : String) : String :=
  let parts := splitOnChar '/' gid
  lastD parts ""

/-- `transformProduct`. The source reads the clock (`new Date().toISOString()`)
for `sniffer_updated_at`; the embedding takes that reading as the explicit
parameter `now`. -/
def transformProduct (storefrontId : String) (node : GqlProductNode) (now : String) : Product :=
  let shopifyId := extractShopifyId node.id
  let images : List ProductImage := node.images.nodes.map fun img =>
    { url := img.url, alt := img.altText, width := img.width, height := img.height }
  let variants : List ProductVariant := node.variants.nodes.map fun v =>
    { id := v.id
      title := v.title
      sku := v.sku
      price := v.price.amount
      compare_at_price := v.compareAtPrice.map fun m => m.amount
      inventory_policy := none
      weight := v.weight
      weight_unit := v.weightUnit
      option1 := (v.selectedOptions.get? 0).map fun o => o.value
      option2 := (v.selectedOptions.get? 1).map fun o => o.value
      option3 := (v.selectedOptions.get? 2).map fun o => o.value }
  { id := storefrontId ++ "::" ++ node.id
    storefront_id := storefrontId
    shopify_id := shopifyId
    title := node.title
    handle := node.handle
    description_html := node.descriptionHtml
    vendor := node.vendor
    product_type := node.productType
    tags := node.tags
    images := images
    variants := variants
    created_at := node.createdAt
    updated_at := node.updatedAt
    sniffer_updated_at := now
    removed_at := none }

/-- A raw (unvalidated) page record as it arrives from `resp.json()`: the code
casts the body without validation, so the nested `images`/`variants` connection
objects may genuinely be absent even though the TypeScript type says otherwise.
All other optional fields are as in `GqlProductNode`. -/
structure RawProductNode where
  id : String
  title : String
  handle : String
  descriptionHtml : String
  vendor : String
  productType : String
  tags : List String
  createdAt : String
  updatedAt : String
  images : Option (GqlNodes GqlImageNode)
  variants : Option (GqlNodes GqlVariantNode)
  deriving DecidableEq, Repr

/-- JS semantics of `transformProduct` applied to a raw record: evaluating
`node.images.nodes.map` (line 546) with `images` absent throws a TypeError, and
likewise `node.variants.nodes.map` (line 553); every optional scalar is guarded
with `?.` / `??` and never throws. -/
def transformProductRaw (storefrontId : String) (node : RawProductNode) (now : String) :
    Except String Product :=
  match node.images, node.variants with
  | none, _ => .error "TypeError: cannot read nodes of undefined (images)"
  | some _, none => .error "TypeError: cannot read nodes of undefined (variants)"
  | some imgs, some vars =>
    .ok (transformProduct storefrontId
      { id := node.id, title := node.title, handle := node.handle
        descriptionHtml := node.descriptionHtml, vendor := node.vendor
        productType := node.productType, tags := node.tags
        createdAt := node.createdAt, updatedAt := node.updatedAt
        images := imgs, variants := vars } now)

/-! ## Store operations (src/db.ts)

Object stores are lists of records; `put` (IndexedDB upsert) replaces the
record with the same key or appends. -/

def putRecord {α : Type} (k : α → String) (xs : List α) (x : α) : List α :=
  if xs.any (fun y => k y == k x) then
    xs.map fun y => if k y == k x then x else y
  else xs ++ [x]

def lookupRecord {α : Type} (k : α → String) (xs : List α) (key : String) : Option α :=
  xs.find? fun y => k y == key

def deleteRecord {α : Type} (k : α → String) (xs : List α) (key : String) : List α :=
  xs.filter fun y => !(k y == key)

/-- The four object stores of the `shopify-theme-sniffer` database. -/
structure DB where
  storefronts : List Storefront
  products : List Product
  cursors : List BackupCursor
  logs : List LogEntry
  deriving DecidableEq, Repr

def emptyDB : DB := ⟨[], [], [], []⟩

def getStorefrontD (db : DB) (id : String) : Option Storefront :=
  lookupRecord Storefront.id db.storefronts id

def putStorefrontD (db : DB) (s : Storefront) : DB :=
  { db with storefronts := putRecord Storefront.id db.storefronts s }

/-- `putProducts`: one transaction putting each product in order. -/
def putProductsL (ps : List Product) (xs : List Product) : List Product :=
  match ps with
  | [] => xs
  | p :: rest => putProductsL rest (putRecord Product.id xs p)

def putProductsD (db : DB) (ps : List Product) : DB :=
  { db with products := putProductsL ps db.products }

def getProductsByStorefrontD (db : DB) (sid : String) : List Product :=
  db.products.filter fun p => p.storefront_id == sid

/-- `getProductCount` (`countFromIndex` on the storefront_id index — counts
soft-deleted records too). -/
def getProductCountD (db : DB) (sid : String) : Nat :=
  (db.products.filter fun p => p.storefront_id == sid).length

/-- `markProductsRemoved` (src/db.ts 143-162): soft-delete every product of the
storefront that is not in `activeIds` and not already soft-deleted. -/
def markProductsRemoved (storefrontId : String) (activeIds : List String)
    (timestamp : String) (xs : List Product) : List Product :=
  xs.map fun p =>
    if p.storefront_id == storefrontId && !(activeIds.contains p.id) && p.removed_at.isNone then
      { p with removed_at := some timestamp }
    else p

def markProductsRemovedD (db : DB) (sid : String) (ids : List String) (ts : String) : DB :=
  { db with products := markProductsRemoved sid ids ts db.products }

def getBackupCursorD (db : DB) (sid : String) : Option BackupCursor :=
  lookupRecord BackupCursor.storefront_id db.cursors sid

def putBackupCursorD (db : DB) (c : BackupCursor) : DB :=
  { db with cursors := putRecord BackupCursor.storefront_id db.cursors c }

def deleteBackupCursorD (db : DB) (sid : String) : DB :=
  { db with cursors := deleteRecord BackupCursor.storefront_id db.cursors sid }

def addLogD (db : DB) (e : LogEntry) : DB :=
  { db with logs := db.logs ++ [e] }

/-! ## Fetch classification (src/products/products.ts 667-670, 857-882) -/

/-- What one awaited `fetchPage` returns: transport status, parsed body, and
the `Retry-After` header (`headers.get('Retry-After')`). -/
structure FetchResponse where
  status : Nat
  body : GqlResponse
  retryAfter : Option String
  deriving DecidableEq, Repr

/-- Outcome of one awaited step of the loop: a response, or a rejection
(an `Error` with `name` and `message`) that propagates to the `catch`. -/
inductive FetchStep
  | resp (r : FetchResponse)
  | throwErr (name msg : String)
  deriving DecidableEq, Repr

/-- `isThrottled`: `body.errors?.some(e => e.extensions?.code === 'THROTTLED') ?? false`. -/
def isThrottled (body : GqlResponse) : Bool :=
  match body.errors with
  | some es => es.any fun e => e.code == some "THROTTLED"
  | none => false

/-- The throttled classification of line 668: HTTP 429 or the payload marker. -/
def isThrottledResp (r : FetchResponse) : Bool :=
  r.status == 429 || isThrottled r.body

/-- JS `parseInt(s, 10)`: skip leading spaces, optional sign, then a maximal
digit prefix; `none` is `NaN` (no digits). -/
def parseIntJS (s : String) : Option Int :=
  let cs := s.toList.dropWhile fun c => c == ' '
  let signAndRest : Int × List Char :=
    match cs with
    | '-' :: r => (-1, r)
    | '+' :: r => (1, r)
    | r => (1, r)
  let ds := signAndRest.2.takeWhile Char.isDigit
  if ds.isEmpty then none
  else some (signAndRest.1 *
    Int.ofNat (ds.foldl (fun a c => a * 10 + (c.toNat - '0'.toNat)) 0))

/-- Lines 669-670: `Number.isFinite(parseInt(retryAfter)) ? retryAfter * 1000 : 2000`. -/
def computeWaitMs (retryAfterHeader : Option String) : Int :=
  match parseIntJS (retryAfterHeader.getD "") with
  | some n => n * 1000
  | none => 2000

/-! ## Engine state -/

/-- A reading of the cooperatively-set `paused`/`cancelled` flags. -/
structure Sig where
  pausedF : Bool
  cancelledF : Bool
  deriving DecidableEq, Repr

def noSig : Sig := ⟨false, false⟩

/-- The observable world threaded through a run: the store, the clock, and the
instrumented effects (requested cursors, sleeps, progress callbacks, and
`chrome.notifications` as `(title, message)` pairs). -/
structure RSt where
  db : DB
  clock : Nat
  requests : List (Option String)
  sleeps : List Int
  progressCalls : List (Nat × Nat)
  notes : List (String × String)
  deriving DecidableEq, Repr

/-- One `new Date().toISOString()` reading. -/
def tickS (st : RSt) : String × RSt :=
  (toString st.clock, { st with clock := st.clock + 1 })

def logTick (st : RSt) (sid : String) (lvl : LogLevel) (msg : String) : RSt :=
  let t := (tickS st).1
  let st' := (tickS st).2
  { st' with db := addLogD st'.db ⟨sid, t, lvl, msg⟩ }

def logAt (st : RSt) (sid : String) (t : String) (lvl : LogLevel) (msg : String) : RSt :=
  { st with db := addLogD st.db ⟨sid, t, lvl, msg⟩ }

def notifyS (st : RSt) (title msg : String) : RSt :=
  { st with notes := st.notes ++ [(title, msg)] }

/-- `BackupEngine.markPartial` (lines 884-889). -/
def markPartialS (st : RSt) (sid : String) : RSt :=
  match getStorefrontD st.db sid with
  | some sf => { st with db := putStorefrontD st.db { sf with backup_status := .partialS } }
  | none => st

/-- Which return path of `run` produced the final state (instrumentation). -/
inductive RunOutcome
  | completed
  | pausedOut
  | cancelledOut
  | throttledOut
  | httpErrorOut (status : Nat)
  | noDataOut
  | exceptionOut (name msg : String)
  deriving DecidableEq, Repr

/-- Result of a run: final world plus instrumentation (`seen` = the observed-id
set of this run, `completedAt` = the natural-completion timestamp when one was
drawn, `cursorFinal` = last value of the local `cursor` variable). -/
structure RunResult where
  st : RSt
  outcome : RunOutcome
  seen : List String
  completedAt : Option String
  cursorFinal : BackupCursor
  deriving DecidableEq, Repr

/-- The `catch` block of `run` (lines 812-837): quota errors get a dedicated
notification and log entry; anything else is logged only. Both mark the
storefront partial; nothing is rolled back. -/
def handleCatch (sid name msg : String) (cursor : BackupCursor) (seen : List String)
    (st : RSt) : RunResult :=
  if name == "QuotaExceededError" then
    let st1 := markPartialS st sid
    let st2 := notifyS st1 "Backup stopped"
      ("Backup stopped: Storage quota exceeded for " ++ sid ++ ". Open the extension to review.")
    let st3 := logTick st2 sid .error "Storage quota exceeded"
    ⟨st3, .exceptionOut name msg, seen, none, cursor⟩
  else
    let st1 := markPartialS st sid
    let st2 := logTick st1 sid .error ("Unexpected error during backup: " ++ msg)
    ⟨st2, .exceptionOut name msg, seen, none, cursor⟩

/-- Transform one page of nodes (line 733): `transformProduct` reads the clock
once per record. -/
def transformPage (sid : String) (nodes : List GqlProductNode) (clock : Nat) :
    List Product × Nat :=
  match nodes with
  | [] => ([], clock)
  | n :: rest =>
    let p := transformProduct sid n (toString clock)
    let pr := transformPage sid rest (clock + 1)
    (p :: pr.1, pr.2)

inductive PageOut
  | doneR (r : RunResult)
  | nextPage (cursor : BackupCursor) (seen : List String) (st : RSt)
  | lastPage (cursor : BackupCursor) (seen : List String) (st : RSt)

/-- Step 3d (lines 702-714): non-200 status — log, mark partial, notify, stop. -/
def httpErrorResult (sid : String) (r : FetchResponse) (cursor : BackupCursor)
    (seen : List String) (st : RSt) : RunResult :=
  let st1 := logTick st sid .error ("HTTP " ++ toString r.status ++ " from GraphQL API")
  let st2 := markPartialS st1 sid
  let st3 := notifyS st2 "Backup failed" ("Backup stopped for " ++ sid ++ ": HTTP " ++ toString r.status)
  ⟨st3, .httpErrorOut r.status, seen, none, cursor⟩

/-- Step 3e (lines 717-728): 200 but no data payload — log, mark partial, stop. -/
def noDataResult (sid : String) (cursor : BackupCursor) (seen : List String)
    (st : RSt) : RunResult :=
  let st1 := logTick st sid .error "GraphQL response missing data"
  let st2 := markPartialS st1 sid
  ⟨st2, .noDataOut, seen, none, cursor⟩

/-- The transformed records of this page (step 3f). -/
def pageProducts (sid : String) (d : GqlProductsData) (st : RSt) : List Product :=
  (transformPage sid d.products.nodes st.clock).1

/-- Step 3h: advance `products_fetched`, move the cursor to the page's end token. -/
def pageCursor (d : GqlProductsData) (cursor : BackupCursor) : BackupCursor :=
  { cursor with
    products_fetched := cursor.products_fetched + d.products.nodes.length
    cursor := d.products.pageInfo.endCursor }

/-- Step 3g: the observed-id set grows by this page's ids. -/
def pageSeen (sid : String) (d : GqlProductsData) (seen : List String) (st : RSt) : List String :=
  seen ++ (pageProducts sid d st).map Product.id

/-- Steps 3f-3j: upsert the page, checkpoint the cursor, fire progress. -/
def pageSt (sid : String) (d : GqlProductsData) (cursor : BackupCursor) (st : RSt) : RSt :=
  let tp := transformPage sid d.products.nodes st.clock
  let st1 := { st with clock := tp.2, db := putProductsD st.db tp.1 }
  let cursor' := pageCursor d cursor
  let st2 := { st1 with db := putBackupCursorD st1.db cursor' }
  { st2 with progressCalls :=
    st2.progressCalls ++ [(cursor'.products_fetched, cursor'.total_products.getD 0)] }

/-- Steps 3f-3l on a successful payload: continue (after queueing the 500 ms
courtesy delay) if more pages remain, else exit the loop naturally. -/
def applyPageOk (sid : String) (d : GqlProductsData) (cursor : BackupCursor)
    (seen : List String) (st : RSt) : PageOut :=
  if d.products.pageInfo.hasNextPage then
    .nextPage (pageCursor d cursor) (pageSeen sid d seen st)
      { pageSt sid d cursor st with sleeps := (pageSt sid d cursor st).sleeps ++ [(500 : Int)] }
  else
    .lastPage (pageCursor d cursor) (pageSeen sid d seen st) (pageSt sid d cursor st)

/-- Steps 3d-3l of the loop body for one fetched page (lines 702-756). -/
def processPage (sid : String) (r : FetchResponse) (cursor : BackupCursor)
    (seen : List String) (st : RSt) : PageOut :=
  if r.status ≠ 200 then .doneR (httpErrorResult sid r cursor seen st)
  else
    match r.body.data with
    | none => .doneR (noDataResult sid cursor seen st)
    | some d => applyPageOk sid d cursor seen st

/-- Step 3c exhaustion (lines 684-694): the retry was throttled too — log,
mark partial, stop without touching the persisted cursor. -/
def throttleAbortResult (sid : String) (cursor : BackupCursor) (seen : List String)
    (st : RSt) : RunResult :=
  let st1 := logTick st sid .error "Rate limited on retry, stopping backup"
  let st2 := markPartialS st1 sid
  ⟨st2, .throttledOut, seen, none, cursor⟩

/-- Post-loop handling when the loop broke on a flag (lines 760-784): cancel
wins over pause; cancel marks partial, deletes the cursor, and logs; pause
persists the paused storefront (the local record of step 1) and logs. -/
def postLoopSignal (sid : String) (sf : Storefront) (sg : Sig) (cursor : BackupCursor)
    (seen : List String) (st : RSt) : RunResult :=
  if sg.cancelledF then
    let st1 := markPartialS st sid
    let st2 := { st1 with db := deleteBackupCursorD st1.db sid }
    let st3 := logTick st2 sid .info "Backup cancelled by user"
    ⟨st3, .cancelledOut, seen, none, cursor⟩
  else
    let sf' := { sf with backup_status := .pausedS }
    let st1 := { st with db := putStorefrontD st.db sf' }
    let st2 := logTick st1 sid .info "Backup paused"
    ⟨st2, .pausedOut, seen, none, cursor⟩

/-- The natural-completion branch (lines 786-811): reconcile soft-deletes
against the observed-id set, recompute count and size, persist the completed
storefront, delete the cursor, log and notify. -/
def completeRun (est : List Product → Nat) (sid : String) (sf : Storefront)
    (cursor : BackupCursor) (seen : List String) (st : RSt) : RunResult :=
  let completedAt := (tickS st).1
  let st0 := (tickS st).2
  let st1 := { st0 with db := markProductsRemovedD st0.db sid seen completedAt }
  let productCount := getProductCountD st1.db sid
  let sizeBytes := est (getProductsByStorefrontD st1.db sid)
  let sf' := { sf with backup_status := .complete, last_backup_at := some completedAt
                       product_count := productCount, size_bytes := sizeBytes }
  let st2 := { st1 with db := putStorefrontD st1.db sf' }
  let st3 := { st2 with db := deleteBackupCursorD st2.db sid }
  let st4 := logAt st3 sid completedAt .info "Backup complete"
  let st5 := notifyS st4 "Backup complete"
    ("Backup complete: " ++ sid ++ " - " ++ toString productCount ++ " products backed up.")
  ⟨st5, .completed, seen, some completedAt, cursor⟩

/-- Post-loop handling after a natural loop exit: the code re-reads the current
flags (they may have been set during the last page's awaits), preferring
cancel, then pause, else completing. -/
def postLoopNatural (est : List Product → Nat) (sid : String) (sf : Storefront)
    (sigs : List Sig) (cursor : BackupCursor) (seen : List String) (st : RSt) : RunResult :=
  let sg := sigs.headD noSig
  if sg.cancelledF || sg.pausedF then postLoopSignal sid sf sg cursor seen st
  else completeRun est sid sf cursor seen st

/-- The main pagination loop plus post-loop handling (lines 657-811).
Each iteration: read the flags (3a), fetch (3b, recording the requested
cursor), resolve throttling with one backoff + one retry of the identical
request (3c), then process the page (3d-3l). A `throwErr` step routes to the
`catch` block. The script running out is modelled as the awaited fetch
rejecting. -/
def loop (est : List Product → Nat) (sid : String) (sf : Storefront) :
    List Sig → List FetchStep → BackupCursor → List String → RSt → RunResult
  | sigs, [], cursor, seen, st =>
    let sg := sigs.headD noSig
    if sg.pausedF || sg.cancelledF then postLoopSignal sid sf sg cursor seen st
    else handleCatch sid "ScriptEnd" "fetch script exhausted" cursor seen
      { st with requests := st.requests ++ [cursor.cursor] }
  | sigs, .throwErr name msg :: _, cursor, seen, st =>
    let sg := sigs.headD noSig
    if sg.pausedF || sg.cancelledF then postLoopSignal sid sf sg cursor seen st
    else handleCatch sid name msg cursor seen
      { st with requests := st.requests ++ [cursor.cursor] }
  | sigs, .resp r1 :: rest1, cursor, seen, st =>
    let sg := sigs.headD noSig
    if sg.pausedF || sg.cancelledF then postLoopSignal sid sf sg cursor seen st
    else
      let stA := { st with requests := st.requests ++ [cursor.cursor] }
      if isThrottledResp r1 then
        let waitMs := computeWaitMs r1.retryAfter
        let stB := logTick stA sid .warn
          ("Rate limited, retrying after " ++ toString waitMs ++ "ms")
        let stC := { stB with sleeps := stB.sleeps ++ [waitMs] }
        match rest1 with
        | [] => handleCatch sid "ScriptEnd" "fetch script exhausted" cursor seen
            { stC with requests := stC.requests ++ [cursor.cursor] }
        | .throwErr name msg :: _ =>
          handleCatch sid name msg cursor seen
            { stC with requests := stC.requests ++ [cursor.cursor] }
        | .resp r2 :: rest2 =>
          let stD := { stC with requests := stC.requests ++ [cursor.cursor] }
          if isThrottledResp r2 then throttleAbortResult sid cursor seen stD
          else
            match processPage sid r2 cursor seen stD with
            | .doneR res => res
            | .nextPage c' s' st' => loop est sid sf sigs.tail rest2 c' s' st'
            | .lastPage c' s' st' => postLoopNatural est sid sf sigs.tail c' s' st'
      else
        match processPage sid r1 cursor seen stA with
        | .doneR res => res
        | .nextPage c' s' st' => loop est sid sf sigs.tail rest1 c' s' st'
        | .lastPage c' s' st' => postLoopNatural est sid sf sigs.tail c' s' st'

/-- `BackupEngine.run` (lines 609-838): step 1 loads or creates the storefront
record and marks it in-progress; step 2 loads or creates the cursor (logging a
resume event when an existing cursor has a non-null token); then the loop. -/
def run (est : List Product → Nat) (sid : String) (sigs : List Sig)
    (script : List FetchStep) (db0 : DB) (clock0 : Nat) : RunResult :=
  let st0 : RSt := ⟨db0, clock0, [], [], [], []⟩
  let now := (tickS st0).1
  let st1 := (tickS st0).2
  let sf : Storefront :=
    match getStorefrontD st1.db sid with
    | none =>
      { id := sid, domain := sid, last_backup_at := none, backup_status := .inProgress
        product_count := 0, size_bytes := 0, created_at := now }
    | some s => { s with backup_status := .inProgress }
  let st2 := { st1 with db := putStorefrontD st1.db sf }
  match getBackupCursorD st2.db sid with
  | some c =>
    let st3 := if c.cursor.isSome then logTick st2 sid .info "Resuming backup from cursor" else st2
    loop est sid sf sigs script c [] st3
  | none =>
    let t := (tickS st2).1
    let st4 := (tickS st2).2
    let c : BackupCursor := ⟨sid, none, t, 0, none⟩
    let st5 := { st4 with db := putBackupCursorD st4.db c }
    loop est sid sf sigs script c [] st5

/-! ## Engine instances and the active-backup registry
(src/products/products.ts 840-851, 896-938)

The in-memory side of the module: each `BackupEngine` instance carries its two
flags, and `runLoops` counts the `run()` invocations of that instance currently
in flight (`startBackup`'s `void engine.run()` and `resume()`'s
`void this.run()` each add one; the counter abstracts from when a loop
terminates, which is immaterial to the overlapping-run scenarios below). -/

structure EngineSt where
  sid : String
  pausedE : Bool
  cancelledE : Bool
  runLoops : Nat
  deriving DecidableEq, Repr

/-- `pause()` (line 840-842). -/
def pauseE (e : EngineSt) : EngineSt := { e with pausedE := true }

/-- `resume()` (lines 844-847): clears the flag and re-invokes `run()`. -/
def resumeE (e : EngineSt) : EngineSt := { e with pausedE := false, runLoops := e.runLoops + 1 }

/-- `cancel()` (lines 849-851). -/
def cancelE (e : EngineSt) : EngineSt := { e with cancelledE := true }

/-- Process-wide state: all constructed engine instances (keyed by an id drawn
from `nextId`) and the `activeBackups` map. -/
structure SysState where
  engines : List (Nat × EngineSt)
  nextId : Nat
  registry : List (String × Nat)
  deriving DecidableEq, Repr

def emptySys : SysState := ⟨[], 0, []⟩

/-- JS `Map.set`. -/
def setAssoc (xs : List (String × Nat)) (k : String) (v : Nat) : List (String × Nat) :=
  if xs.any (fun p => p.1 == k) then xs.map fun p => if p.1 == k then (k, v) else p
  else xs ++ [(k, v)]

/-- JS `Map.get`. -/
def getAssoc (xs : List (String × Nat)) (k : String) : Option Nat :=
  (xs.find? fun p => p.1 == k).map Prod.snd

def updateEngine (s : SysState) (eid : Nat) (f : EngineSt → EngineSt) : SysState :=
  { s with engines := s.engines.map fun pe => if pe.1 == eid then (pe.1, f pe.2) else pe }

/-- `startBackup` (lines 898-908): unconditionally constructs a fresh engine,
overwrites the registry entry for the storefront, and fires `run()`. -/
def startBackupM (sid : String) (s : SysState) : SysState :=
  let eid := s.nextId
  let e : EngineSt := ⟨sid, false, false, 1⟩
  { engines := s.engines ++ [(eid, e)], nextId := eid + 1
    registry := setAssoc s.registry sid eid }

/-- `resumeBackup` (lines 917-931): signal the registered engine via
`resume()`, else behave like `startBackup`. -/
def resumeBackupM (sid : String) (s : SysState) : SysState :=
  match getAssoc s.registry sid with
  | some eid => updateEngine s eid resumeE
  | none => startBackupM sid s

/-- `pauseBackup` (lines 910-915). -/
def pauseBackupM (sid : String) (s : SysState) : SysState :=
  match getAssoc s.registry sid with
  | some eid => updateEngine s eid pauseE
  | none => s

/-- `cancelBackup` (lines 933-938). -/
def cancelBackupM (sid : String) (s : SysState) : SysState :=
  match getAssoc s.registry sid with
  | some eid => updateEngine s eid cancelE
  | none => s

/-- Number of run loops currently in flight for a storefront, across all
engine instances. -/
def activeLoopsFor (sid : String) (s : SysState) : Nat :=
  List.foldl (fun a pe => a + pe.2.runLoops) 0 (s.engines.filter fun pe => pe.2.sid == sid)

/-! ## Derived observations used in theorem statements -/

def statusOf (db : DB) (sid : String) : Option BackupStatus :=
  (getStorefrontD db sid).map Storefront.backup_status

/-- Invariant carried around the loop: every stored product of this storefront
whose id has been observed this run was upserted by this run, hence not
soft-deleted. -/
def invSeenNull (sid : String) (seen : List String) (ps : List Product) : Prop :=
  ∀ p ∈ ps, p.storefront_id = sid → p.id ∈ seen → p.removed_at = none

/-- The run outcomes that end in `backup_status = partial` with the cursor
retained (throttle exhaustion, HTTP error, missing payload, exception). -/
def errOutcome : RunOutcome → Bool
  | .throttledOut => true
  | .httpErrorOut _ => true
  | .noDataOut => true
  | .exceptionOut _ _ => true
  | _ => false

/-- What the loop guarantees, relative to its entry state `st0` and entry
observed-set `seen0`: the observed set only grows; natural completion
reconciles `removed_at` exactly against the observed set, ends `complete`, and
deletes the cursor; every other exit never newly soft-deletes anything; pause
ends `paused` keeping the cursor; cancel ends `partial` deleting the cursor;
error exits end `partial` keeping the cursor. -/
def MasterConcl (sid : String) (seen0 : List String) (st0 : RSt) (r : RunResult) : Prop :=
  (∀ x ∈ seen0, x ∈ r.seen) ∧
  (r.outcome = .completed →
    ∃ t, r.completedAt = some t ∧
      (∀ p ∈ r.st.db.products, p.storefront_id = sid → (p.removed_at = none ↔ p.id ∈ r.seen)) ∧
      (∀ p ∈ st0.db.products, p.storefront_id = sid → p.id ∉ r.seen → p.removed_at = none →
        { p with removed_at := some t } ∈ r.st.db.products) ∧
      statusOf r.st.db sid = some .complete ∧
      getBackupCursorD r.st.db sid = none) ∧
  (r.outcome ≠ .completed →
    ∀ p ∈ r.st.db.products, p.removed_at ≠ none → p ∈ st0.db.products) ∧
  (r.outcome = .pausedOut →
    statusOf r.st.db sid = some .pausedS ∧ (getBackupCursorD r.st.db sid).isSome = true) ∧
  (r.outcome = .cancelledOut →
    statusOf r.st.db sid = some .partialS ∧ getBackupCursorD r.st.db sid = none) ∧
  (errOutcome r.outcome = true →
    statusOf r.st.db sid = some .partialS ∧ (getBackupCursorD r.st.db sid).isSome = true)

/-- `MasterConcl` at the `run` level: entry observed-set is empty and the entry
store is `db0` (the pre-run store; `run`'s setup does not touch products). -/
def RunConcl (sid : String) (db0 : DB) (r : RunResult) : Prop :=
  (r.outcome = .completed →
    ∃ t, r.completedAt = some t ∧
      (∀ p ∈ r.st.db.products, p.storefront_id = sid → (p.removed_at = none ↔ p.id ∈ r.seen)) ∧
      (∀ p ∈ db0.products, p.storefront_id = sid → p.id ∉ r.seen → p.removed_at = none →
        { p with removed_at := some t } ∈ r.st.db.products) ∧
      statusOf r.st.db sid = some .complete ∧
      getBackupCursorD r.st.db sid = none) ∧
  (r.outcome ≠ .completed →
    ∀ p ∈ r.st.db.products, p.removed_at ≠ none → p ∈ db0.products) ∧
  (r.outcome = .pausedOut →
    statusOf r.st.db sid = some .pausedS ∧ (getBackupCursorD r.st.db sid).isSome = true) ∧
  (r.outcome = .cancelledOut →
    statusOf r.st.db sid = some .partialS ∧ getBackupCursorD r.st.db sid = none) ∧
  (errOutcome r.outcome = true →
    statusOf r.st.db sid = some .partialS ∧ (getBackupCursorD r.st.db sid).isSome = true)

/-! ## Concrete scenario inputs (for counterexamples and witnesses) -/

/-- Opaque size estimator instantiated trivially in concrete scenarios. -/
def est0 : List Product → Nat := fun _ => 0

/-- A successful page response carrying the given records. -/
def okPage (ns : List GqlProductNode) (hasNext : Bool) (tok : Option String) : FetchStep :=
  .resp ⟨200, ⟨some ⟨⟨⟨hasNext, tok⟩, ns⟩⟩, none⟩, none⟩

/-- A throttled response (HTTP 429) with the given `Retry-After` header. -/
def thrStep (h : Option String) : FetchStep := .resp ⟨429, ⟨none, none⟩, h⟩

/-- A minimal product node with the given numeric suffix. -/
def mkNode (i : String) : GqlProductNode :=
  { id := "gid://shopify/Product/" ++ i, title := "T" ++ i, handle := "h"
    descriptionHtml := "", vendor := "v", productType := "t", tags := []
    createdAt := "c", updatedAt := "u", images := ⟨[]⟩, variants := ⟨[]⟩ }

/-- Fresh-backup script: 3 pages of 2 records each. -/
def scriptC5 : List FetchStep :=
  [okPage [mkNode "1", mkNode "2"] true (some "c1"),
   okPage [mkNode "3", mkNode "4"] true (some "c2"),
   okPage [mkNode "5", mkNode "6"] false none]

/-- A stored product of storefront `"s"` that was soft-deleted at time `"9"`. -/
def prodX : Product :=
  { id := "s::gid://shopify/Product/1", storefront_id := "s", shopify_id := "1", title := "old"
    handle := "h", description_html := "", vendor := "v", product_type := "t", tags := []
    images := [], variants := [], created_at := "c", updated_at := "u"
    sniffer_updated_at := "z", removed_at := some "9" }

/-- A store holding only `prodX`. -/
def dbX : DB := ⟨[], [prodX], [], []⟩

/-- Flag schedule: run freely through iteration 1, then `pause()` lands before
iteration 2's check. -/
def sigsPause : List Sig := [⟨false, false⟩, ⟨true, false⟩]

/-- A raw page record whose nested `images` connection is absent (and whose
other fields are present). -/
def rawNodeNoImages : RawProductNode :=
  { id := "gid://shopify/Product/1", title := "T", handle := "h", descriptionHtml := ""
    vendor := "v", productType := "t", tags := [], createdAt := "c", updatedAt := "u"
    images := none, variants := some ⟨[]⟩ }

/-- A concrete engine instance (one run in flight, no flags set). -/
def engine0 : EngineSt := ⟨"shop.example", false, false, 1⟩

/-- An active (not soft-deleted) stored product of storefront `"s"`. -/
def prodY : Product := { prodX with removed_at := none }

/-- A store holding only `prodY`. -/
def dbY : DB := ⟨[], [prodY], [], []⟩

/-- A raw page record with both nested collections present, exercising the
null-substitutions: image without alt text, variant without compare-at price,
weight, or selected options. -/
def rawNodeFull : RawProductNode :=
  { id := "gid://shopify/Product/1", title := "T", handle := "h", descriptionHtml := ""
    vendor := "v", productType := "t", tags := [], createdAt := "c", updatedAt := "u"
    images := some ⟨[⟨"https://img", none, 10, 10⟩]⟩
    variants := some ⟨[⟨"gid://shopify/ProductVariant/1", "Default", "SKU1",
      ⟨"9.99", "USD"⟩, none, none, none, []⟩]⟩ }

/-- A fresh-backup script of 3 pages of 2 records each with arbitrary records. -/
def fresh3PageScript (a b c d e f : GqlProductNode) (t1 t2 : String)
    (o3 : Option String) : List FetchStep :=
  [okPage [a, b] true (some t1), okPage [c, d] true (some t2), okPage [e, f] false o3]

/-! # Lemmas about the record stores -/

theorem mem_putRecord {α : Type} {k : α → String} {xs : List α} {x p : α}
    (h : p ∈ putRecord k xs x) : p = x ∨ (p ∈ xs ∧ k p ≠ k x) := by
  unfold putRecord at h
  split at h
  · rcases List.mem_map.mp h with ⟨q, hq, hqe⟩
    by_cases hk : k q = k x
    · rw [if_pos (by simp [hk])] at hqe
      exact Or.inl hqe.symm
    · rw [if_neg (by simp [hk])] at hqe
      exact hqe ▸ Or.inr ⟨hq, hk⟩
  · next hc =>
    rcases List.mem_append.mp h with h1 | h1
    · refine Or.inr ⟨h1, fun he => hc ?_⟩
      exact List.any_eq_true.mpr ⟨p, h1, by simp [he]⟩
    · exact Or.inl (by simpa using h1)

theorem mem_putRecord_of_ne {α : Type} {k : α → String} {xs : List α} {x p : α}
    (hp : p ∈ xs) (hne : k p ≠ k x) : p ∈ putRecord k xs x := by
  unfold putRecord
  split
  · exact List.mem_map.mpr ⟨p, hp, by rw [if_neg (by simp [hne])]⟩
  · exact List.mem_append.mpr (Or.inl hp)

theorem lookupRecord_key {α : Type} {k : α → String} {xs : List α} {key : String} {x : α}
    (h : lookupRecord k xs key = some x) : k x = key := by
  have := List.find?_some h
  simpa using this

theorem find?_replace_self {α : Type} (k : α → String) (x : α) :
    ∀ xs : List α, (xs.any fun y => k y == k x) = true →
    List.find? (fun y => k y == k x) (xs.map fun y => if k y == k x then x else y) = some x := by
  intro xs
  induction xs with
  | nil => intro h; simp at h
  | cons a as ih =>
    intro h
    rw [List.map_cons, List.find?_cons]
    by_cases ha : (k a == k x) = true
    · rw [if_pos ha]
      simp
    · rw [if_neg ha]
      have ha' : (k a == k x) = false := by simpa using ha
      have h' : (as.any fun y => k y == k x) = true := by
        simp only [List.any_cons, ha', Bool.false_or] at h
        exact h
      simp only [ha']
      exact ih h'

theorem find?_replace_other {α : Type} (k : α → String) (x : α) {key : String}
    (hne : key ≠ k x) :
    ∀ xs : List α,
    List.find? (fun y => k y == key) (xs.map fun y => if k y == k x then x else y) =
      List.find? (fun y => k y == key) xs := by
  intro xs
  induction xs with
  | nil => simp
  | cons a as ih =>
    rw [List.map_cons, List.find?_cons, List.find?_cons]
    by_cases ha : (k a == k x) = true
    · rw [if_pos ha]
      have ha' : k a = k x := by simpa using ha
      have hxkey : (k x == key) = false := beq_eq_false_iff_ne.mpr (fun h => hne h.symm)
      have hakey : (k a == key) = false := by rw [ha']; exact hxkey
      simp only [hxkey, hakey]
      exact ih
    · rw [if_neg ha]
      cases hak : (k a == key) with
      | true => simp only [hak]
      | false =>
        simp only [hak]
        exact ih

theorem lookup_putRecord_self {α : Type} (k : α → String) (xs : List α) (x : α) :
    lookupRecord k (putRecord k xs x) (k x) = some x := by
  unfold putRecord lookupRecord
  cases hc : (xs.any fun y => k y == k x) with
  | true => simpa [hc] using find?_replace_self k x xs hc
  | false =>
    have hnone : List.find? (fun y => k y == k x) xs = none := by
      rw [List.find?_eq_none]
      intro y hy hky
      rw [List.any_eq_false] at hc
      exact hc y hy hky
    simp [hc, List.find?_append, hnone, List.find?_cons]

theorem lookup_putRecord_ne {α : Type} (k : α → String) (xs : List α) (x : α)
    {key : String} (hne : key ≠ k x) :
    lookupRecord k (putRecord k xs x) key = lookupRecord k xs key := by
  unfold putRecord lookupRecord
  cases hc : (xs.any fun y => k y == k x) with
  | true => simpa [hc] using find?_replace_other k x hne xs
  | false =>
    have hxkey : (k x == key) = false := beq_eq_false_iff_ne.mpr (fun h => hne h.symm)
    cases hfind : List.find? (fun y => k y == key) xs with
    | some v => simp [hc, List.find?_append, hfind]
    | none => simp [hc, List.find?_append, hfind, List.find?_cons, hxkey]

theorem transformProduct_removed (sid : String) (n : GqlProductNode) (t : String) :
    (transformProduct sid n t).removed_at = none := rfl

theorem transformProduct_storefront (sid : String) (n : GqlProductNode) (t : String) :
    (transformProduct sid n t).storefront_id = sid := rfl

theorem transformProduct_key (sid : String) (n : GqlProductNode) (t : String) :
    (transformProduct sid n t).id = sid ++ "::" ++ n.id := rfl

theorem transformPage_mem {sid : String} {nodes : List GqlProductNode} {clock : Nat}
    {p : Product} (h : p ∈ (transformPage sid nodes clock).1) :
    ∃ n ∈ nodes, ∃ t, p = transformProduct sid n t := by
  induction nodes generalizing clock with
  | nil => simp [transformPage] at h
  | cons n rest ih =>
    simp only [transformPage] at h
    rcases List.mem_cons.mp h with rfl | h'
    · exact ⟨n, List.mem_cons_self n rest, toString clock, rfl⟩
    · rcases ih h' with ⟨m, hm, t, ht⟩
      exact ⟨m, List.mem_cons_of_mem n hm, t, ht⟩

theorem transformPage_ids (sid : String) (nodes : List GqlProductNode) (clock : Nat) :
    (transformPage sid nodes clock).1.map Product.id = nodes.map fun n => sid ++ "::" ++ n.id := by
  induction nodes generalizing clock with
  | nil => simp [transformPage]
  | cons n rest ih => simp [transformPage, transformProduct_key, ih]

theorem lookup_deleteRecord_self {α : Type} (k : α → String) (xs : List α) (key : String) :
    lookupRecord k (deleteRecord k xs key) key = none := by
  unfold deleteRecord lookupRecord
  rw [List.find?_eq_none]
  intro x hx
  have := (List.mem_filter.mp hx).2
  simpa using this

theorem mem_putRecord_self {α : Type} (k : α → String) (xs : List α) (x : α) :
    x ∈ putRecord k xs x := by
  unfold putRecord
  split
  · next hc =>
    rcases List.any_eq_true.mp hc with ⟨y, hy, hky⟩
    exact List.mem_map.mpr ⟨y, hy, by rw [if_pos hky]⟩
  · exact List.mem_append.mpr (Or.inr (List.mem_singleton.mpr rfl))

theorem mem_putProductsL {ps xs : List Product} {p : Product} (h : p ∈ putProductsL ps xs) :
    p ∈ ps ∨ (p ∈ xs ∧ p.id ∉ ps.map Product.id) := by
  induction ps generalizing xs with
  | nil =>
    simp only [putProductsL] at h
    exact Or.inr ⟨h, by simp⟩
  | cons q qs ih =>
    simp only [putProductsL] at h
    rcases ih h with hq | ⟨hmem, hid⟩
    · exact Or.inl (List.mem_cons_of_mem q hq)
    · rcases mem_putRecord hmem with rfl | ⟨hx, hne⟩
      · exact Or.inl (List.mem_cons_self _ _)
      · refine Or.inr ⟨hx, fun hin => ?_⟩
        rw [List.map_cons] at hin
        rcases List.mem_cons.mp hin with he | hin'
        · exact hne he
        · exact hid hin'

theorem mem_putProductsL_of_ne {ps xs : List Product} {p : Product}
    (hp : p ∈ xs) (hid : p.id ∉ ps.map Product.id) : p ∈ putProductsL ps xs := by
  induction ps generalizing xs with
  | nil => simpa [putProductsL] using hp
  | cons q qs ih =>
    have h1 : p.id ≠ q.id := fun he => hid (by simp [he])
    have h2 : p.id ∉ qs.map Product.id := fun hm => hid (List.mem_cons_of_mem _ hm)
    simp only [putProductsL]
    exact ih (mem_putRecord_of_ne hp h1) h2

theorem exists_key_putProductsL {ps : List Product} {key : String} :
    ∀ xs : List Product, key ∈ ps.map Product.id →
    ∃ q ∈ putProductsL ps xs, q.id = key := by
  induction ps with
  | nil => intro xs h; simp at h
  | cons q qs ih =>
    intro xs h
    by_cases hqs : key ∈ qs.map Product.id
    · exact ih (putRecord Product.id xs q) hqs
    · have hq : q.id = key := by
        rw [List.map_cons] at h
        rcases List.mem_cons.mp h with he | hin'
        · exact he.symm
        · exact absurd hin' hqs
      refine ⟨q, ?_, hq⟩
      simp only [putProductsL]
      exact mem_putProductsL_of_ne (mem_putRecord_self Product.id xs q) (hq ▸ hqs)

theorem lookup_deleteRecord_ne {α : Type} (k : α → String) (xs : List α)
    {key key' : String} (hne : key' ≠ key) :
    lookupRecord k (deleteRecord k xs key) key' = lookupRecord k xs key' := by
  unfold deleteRecord lookupRecord
  induction xs with
  | nil => simp
  | cons a as ih =>
    by_cases ha : k a = key
    · have h1 : (k a == key) = true := by simp [ha]
      have h2 : (k a == key') = false := beq_eq_false_iff_ne.mpr (by rw [ha]; exact hne.symm)
      simp [List.filter_cons, h1, List.find?_cons, h2, ih]
    · have h1 : (k a == key) = false := by simp [ha]
      simp [List.filter_cons, h1, List.find?_cons, ih]

/-! # Lemmas about the store wrappers and engine branch functions -/

theorem getStorefrontD_congr {db1 db2 : DB} (h : db1.storefronts = db2.storefronts)
    (sid : String) : getStorefrontD db1 sid = getStorefrontD db2 sid := by
  unfold getStorefrontD
  rw [h]

theorem getBackupCursorD_congr {db1 db2 : DB} (h : db1.cursors = db2.cursors)
    (sid : String) : getBackupCursorD db1 sid = getBackupCursorD db2 sid := by
  unfold getBackupCursorD
  rw [h]

theorem statusOf_congr {db1 db2 : DB} (h : db1.storefronts = db2.storefronts)
    (sid : String) : statusOf db1 sid = statusOf db2 sid := by
  unfold statusOf
  rw [getStorefrontD_congr h]

theorem getStorefrontD_key {db : DB} {sid : String} {sf : Storefront}
    (h : getStorefrontD db sid = some sf) : sf.id = sid :=
  lookupRecord_key h

theorem statusOf_putStorefrontD (db : DB) (s : Storefront) :
    statusOf (putStorefrontD db s) s.id = some s.backup_status := by
  unfold statusOf getStorefrontD putStorefrontD
  rw [show s.id = Storefront.id s from rfl, lookup_putRecord_self]
  rfl

theorem statusOf_putStorefrontD_key (db : DB) (s : Storefront) {key : String}
    (hk : s.id = key) : statusOf (putStorefrontD db s) key = some s.backup_status := by
  subst hk
  exact statusOf_putStorefrontD db s

theorem getStorefrontD_putStorefrontD_key (db : DB) (s : Storefront) {key : String}
    (hk : s.id = key) : getStorefrontD (putStorefrontD db s) key = some s := by
  subst hk
  unfold getStorefrontD putStorefrontD
  rw [show s.id = Storefront.id s from rfl, lookup_putRecord_self]

theorem getBackupCursorD_putBackupCursorD_self (db : DB) (c : BackupCursor) :
    getBackupCursorD (putBackupCursorD db c) c.storefront_id = some c := by
  unfold getBackupCursorD putBackupCursorD
  rw [show c.storefront_id = BackupCursor.storefront_id c from rfl, lookup_putRecord_self]

theorem getBackupCursorD_deleteBackupCursorD_self (db : DB) (sid : String) :
    getBackupCursorD (deleteBackupCursorD db sid) sid = none := by
  unfold getBackupCursorD deleteBackupCursorD
  exact lookup_deleteRecord_self _ _ _

theorem markPartialS_products (st : RSt) (sid : String) :
    (markPartialS st sid).db.products = st.db.products := by
  unfold markPartialS
  split <;> rfl

theorem markPartialS_cursors (st : RSt) (sid : String) :
    (markPartialS st sid).db.cursors = st.db.cursors := by
  unfold markPartialS
  split <;> rfl

theorem markPartialS_status {st : RSt} {sid : String}
    (h : (getStorefrontD st.db sid).isSome = true) :
    statusOf (markPartialS st sid).db sid = some .partialS := by
  unfold markPartialS
  cases hsf : getStorefrontD st.db sid with
  | none => rw [hsf] at h; simp at h
  | some sf =>
    have hid : sf.id = sid := getStorefrontD_key hsf
    exact statusOf_putStorefrontD_key st.db { sf with backup_status := .partialS } hid

/-! Reconciliation (`markProductsRemoved`) lemmas. -/

theorem mark_iff {sid : String} {seen : List String} (ts : String) {ps : List Product}
    (hinv : invSeenNull sid seen ps) :
    ∀ p ∈ markProductsRemoved sid seen ts ps, p.storefront_id = sid →
      (p.removed_at = none ↔ p.id ∈ seen) := by
  intro p hp hsid
  rcases List.mem_map.mp hp with ⟨q, hq, hqe⟩
  by_cases hcond :
      (q.storefront_id == sid && !(seen.contains q.id) && q.removed_at.isNone) = true
  · rw [if_pos hcond] at hqe
    subst hqe
    have hnotin : q.id ∉ seen := by
      have h2 := (Bool.and_eq_true_iff.mp hcond).1
      have h3 := (Bool.and_eq_true_iff.mp h2).2
      simpa using h3
    constructor
    · intro h; simp at h
    · intro h; exact absurd h hnotin
  · rw [if_neg hcond] at hqe
    subst hqe
    have hsid' : (q.storefront_id == sid) = true := by simp [hsid]
    constructor
    · intro hnone
      by_contra hnotin
      apply hcond
      have h2 : (seen.contains q.id) = false := by simpa using hnotin
      simp [hsid', h2, hnone]
      exact hnotin
    · intro hin
      exact hinv q hq hsid hin

theorem mark_sets {sid : String} {seen : List String} (ts : String) {ps : List Product} :
    ∀ p ∈ ps, p.storefront_id = sid → p.id ∉ seen → p.removed_at = none →
      { p with removed_at := some ts } ∈ markProductsRemoved sid seen ts ps := by
  intro p hp h1 h2 h3
  refine List.mem_map.mpr ⟨p, hp, ?_⟩
  have hc : (p.storefront_id == sid && !(seen.contains p.id) && p.removed_at.isNone) = true := by
    have ha : (p.storefront_id == sid) = true := by simp [h1]
    have hb : (seen.contains p.id) = false := by simpa using h2
    simp [ha, hb, h3]
    exact h2
  rw [if_pos hc]

theorem mark_mem {sid : String} {seen : List String} {ts : String} {ps : List Product}
    {p : Product} (hp : p ∈ markProductsRemoved sid seen ts ps) :
    ∃ q ∈ ps, p = q ∨ p = { q with removed_at := some ts } := by
  rcases List.mem_map.mp hp with ⟨q, hq, hqe⟩
  refine ⟨q, hq, ?_⟩
  by_cases hcond :
      (q.storefront_id == sid && !(seen.contains q.id) && q.removed_at.isNone) = true
  · rw [if_pos hcond] at hqe; exact Or.inr hqe.symm
  · rw [if_neg hcond] at hqe; exact Or.inl hqe.symm

/-! Page-application lemmas. -/

theorem pageSt_products (sid : String) (d : GqlProductsData) (cursor : BackupCursor) (st : RSt) :
    (pageSt sid d cursor st).db.products = putProductsL (pageProducts sid d st) st.db.products := rfl

theorem pageSt_storefronts (sid : String) (d : GqlProductsData) (cursor : BackupCursor) (st : RSt) :
    (pageSt sid d cursor st).db.storefronts = st.db.storefronts := rfl

theorem pageSt_cursorLookup (sid : String) (d : GqlProductsData) (cursor : BackupCursor) (st : RSt) :
    getBackupCursorD (pageSt sid d cursor st).db (pageCursor d cursor).storefront_id =
      some (pageCursor d cursor) := by
  have : (pageSt sid d cursor st).db.cursors =
      (putBackupCursorD (putProductsD st.db (pageProducts sid d st)) (pageCursor d cursor)).cursors := rfl
  rw [getBackupCursorD_congr this]
  exact getBackupCursorD_putBackupCursorD_self _ _

theorem pageProducts_removed {sid : String} {d : GqlProductsData} {st : RSt}
    {p : Product} (h : p ∈ pageProducts sid d st) : p.removed_at = none := by
  rcases transformPage_mem h with ⟨n, _, t, rfl⟩
  rfl

theorem invSeenNull_page (sid : String) (d : GqlProductsData) (seen : List String) (st : RSt)
    (hinv : invSeenNull sid seen st.db.products) :
    invSeenNull sid (pageSeen sid d seen st)
      (putProductsL (pageProducts sid d st) st.db.products) := by
  intro p hp hsid hseen
  rcases mem_putProductsL hp with hnew | ⟨hold, hnotin⟩
  · exact pageProducts_removed hnew
  · rcases List.mem_append.mp hseen with h1 | h2
    · exact hinv p hold hsid h1
    · exact absurd h2 hnotin

theorem newTomb_page {sid : String} {d : GqlProductsData} {st : RSt} {p : Product}
    (hp : p ∈ putProductsL (pageProducts sid d st) st.db.products)
    (hne : p.removed_at ≠ none) : p ∈ st.db.products := by
  rcases mem_putProductsL hp with hnew | ⟨hold, _⟩
  · exact absurd (pageProducts_removed hnew) hne
  · exact hold

/-! # MasterConcl: terminal cases and composition -/

theorem masterConcl_errTerminal {sid : String} {seen : List String} {st : RSt} {r : RunResult}
    (hseen : r.seen = seen)
    (hprod : r.st.db.products = st.db.products)
    (hcurs : r.st.db.cursors = st.db.cursors)
    (hstatus : statusOf r.st.db sid = some .partialS)
    (herr : errOutcome r.outcome = true)
    (hcur : (getBackupCursorD st.db sid).isSome = true) :
    MasterConcl sid seen st r := by
  have hnc : r.outcome ≠ .completed := by
    intro h; rw [h] at herr; simp [errOutcome] at herr
  refine ⟨?_, ?_, ?_, ?_, ?_, ?_⟩
  · intro x hx; rw [hseen]; exact hx
  · intro h; exact absurd h hnc
  · intro _ p hp _; rw [hprod] at hp; exact hp
  · intro h; rw [h] at herr; simp [errOutcome] at herr
  · intro h; rw [h] at herr; simp [errOutcome] at herr
  · intro _
    refine ⟨hstatus, ?_⟩
    rw [getBackupCursorD_congr hcurs]
    exact hcur

theorem masterConcl_handleCatch (sid name msg : String) (cursor : BackupCursor)
    (seen : List String) (st : RSt)
    (hsf : (getStorefrontD st.db sid).isSome = true)
    (hcur : (getBackupCursorD st.db sid).isSome = true) :
    MasterConcl sid seen st (handleCatch sid name msg cursor seen st) := by
  unfold handleCatch
  by_cases hq : (name == "QuotaExceededError") = true
  · rw [if_pos hq]
    exact masterConcl_errTerminal rfl (markPartialS_products st sid) (markPartialS_cursors st sid)
      (markPartialS_status hsf) rfl hcur
  · rw [if_neg hq]
    exact masterConcl_errTerminal rfl (markPartialS_products st sid) (markPartialS_cursors st sid)
      (markPartialS_status hsf) rfl hcur

theorem masterConcl_throttleAbort (sid : String) (cursor : BackupCursor)
    (seen : List String) (st : RSt)
    (hsf : (getStorefrontD st.db sid).isSome = true)
    (hcur : (getBackupCursorD st.db sid).isSome = true) :
    MasterConcl sid seen st (throttleAbortResult sid cursor seen st) :=
  masterConcl_errTerminal rfl (markPartialS_products _ sid) (markPartialS_cursors _ sid)
    (markPartialS_status hsf) rfl hcur

theorem masterConcl_httpError (sid : String) (r : FetchResponse) (cursor : BackupCursor)
    (seen : List String) (st : RSt)
    (hsf : (getStorefrontD st.db sid).isSome = true)
    (hcur : (getBackupCursorD st.db sid).isSome = true) :
    MasterConcl sid seen st (httpErrorResult sid r cursor seen st) :=
  masterConcl_errTerminal rfl (markPartialS_products _ sid) (markPartialS_cursors _ sid)
    (markPartialS_status hsf) rfl hcur

theorem masterConcl_noData (sid : String) (cursor : BackupCursor)
    (seen : List String) (st : RSt)
    (hsf : (getStorefrontD st.db sid).isSome = true)
    (hcur : (getBackupCursorD st.db sid).isSome = true) :
    MasterConcl sid seen st (noDataResult sid cursor seen st) :=
  masterConcl_errTerminal rfl (markPartialS_products _ sid) (markPartialS_cursors _ sid)
    (markPartialS_status hsf) rfl hcur

theorem masterConcl_postLoopSignal (sid : String) (sf : Storefront) (sg : Sig)
    (cursor : BackupCursor) (seen : List String) (st : RSt)
    (hsfid : sf.id = sid)
    (hsf : (getStorefrontD st.db sid).isSome = true)
    (hcur : (getBackupCursorD st.db sid).isSome = true) :
    MasterConcl sid seen st (postLoopSignal sid sf sg cursor seen st) := by
  unfold postLoopSignal
  by_cases hc : sg.cancelledF = true
  · rw [if_pos hc]
    refine ⟨fun x hx => hx, ?_, ?_, ?_, ?_, ?_⟩
    · intro h; exact nomatch h
    · intro _ p hp _
      have hp' : p ∈ (markPartialS st sid).db.products := hp
      rw [markPartialS_products] at hp'
      exact hp'
    · intro h; exact nomatch h
    · intro _
      refine ⟨markPartialS_status hsf, ?_⟩
      exact getBackupCursorD_deleteBackupCursorD_self (markPartialS st sid).db sid
    · intro h; exact nomatch h
  · rw [if_neg hc]
    refine ⟨fun x hx => hx, ?_, ?_, ?_, ?_, ?_⟩
    · intro h; exact nomatch h
    · intro _ p hp _; exact hp
    · intro _
      refine ⟨?_, ?_⟩
      · exact statusOf_putStorefrontD_key st.db { sf with backup_status := .pausedS } hsfid
      · exact hcur
    · intro h; exact nomatch h
    · intro h; exact nomatch h

theorem masterConcl_completeRun (est : List Product → Nat) (sid : String) (sf : Storefront)
    (cursor : BackupCursor) (seen : List String) (st : RSt)
    (hsfid : sf.id = sid)
    (hinv : invSeenNull sid seen st.db.products) :
    MasterConcl sid seen st (completeRun est sid sf cursor seen st) := by
  refine ⟨fun x hx => hx, ?_, ?_, ?_, ?_, ?_⟩
  · intro _
    refine ⟨toString st.clock, rfl, ?_, ?_, ?_, ?_⟩
    · exact mark_iff (toString st.clock) hinv
    · exact mark_sets (toString st.clock)
    · exact statusOf_putStorefrontD_key _
        { sf with backup_status := .complete
                  last_backup_at := some (toString st.clock)
                  product_count := getProductCountD
                    (markProductsRemovedD (tickS st).2.db sid seen (toString st.clock)) sid
                  size_bytes := est (getProductsByStorefrontD
                    (markProductsRemovedD (tickS st).2.db sid seen (toString st.clock)) sid) } hsfid
    · exact getBackupCursorD_deleteBackupCursorD_self _ sid
  · intro h; exact absurd rfl h
  · intro h; exact nomatch h
  · intro h; exact nomatch h
  · intro h
    rw [show (completeRun est sid sf cursor seen st).outcome = .completed from rfl] at h
    simp [errOutcome] at h

theorem masterConcl_compose {sid : String} {seen seen' : List String} {st st' : RSt}
    {r : RunResult} (ids : List String)
    (h2 : MasterConcl sid seen' st' r)
    (hmono : ∀ x ∈ seen, x ∈ seen')
    (hnew : ∀ p ∈ st'.db.products, p.removed_at ≠ none → p ∈ st.db.products)
    (hpres : ∀ p ∈ st.db.products, p.id ∉ ids → p ∈ st'.db.products)
    (hids : ∀ x ∈ ids, x ∈ seen') :
    MasterConcl sid seen st r := by
  obtain ⟨c0, c1, c2, c3, c4, c5⟩ := h2
  refine ⟨?_, ?_, ?_, c3, c4, c5⟩
  · intro x hx; exact c0 x (hmono x hx)
  · intro h
    rcases c1 h with ⟨t, hts, hA, hB, hst, hcu⟩
    refine ⟨t, hts, hA, ?_, hst, hcu⟩
    intro p hp hsid hnseen hnone
    have hnid : p.id ∉ ids := fun hin => hnseen (c0 p.id (hids p.id hin))
    exact hB p (hpres p hp hnid) hsid hnseen hnone
  · intro h p hp hne
    exact hnew p (c2 h p hp hne) hne

theorem masterConcl_postLoopNatural (est : List Product → Nat) (sid : String) (sf : Storefront)
    (sigs : List Sig) (cursor : BackupCursor) (seen : List String) (st : RSt)
    (hsfid : sf.id = sid)
    (hsf : (getStorefrontD st.db sid).isSome = true)
    (hcur : (getBackupCursorD st.db sid).isSome = true)
    (hinv : invSeenNull sid seen st.db.products) :
    MasterConcl sid seen st (postLoopNatural est sid sf sigs cursor seen st) := by
  unfold postLoopNatural
  by_cases hc : ((sigs.headD noSig).cancelledF || (sigs.headD noSig).pausedF) = true
  · rw [if_pos hc]
    exact masterConcl_postLoopSignal _ _ _ _ _ _ hsfid hsf hcur
  · rw [if_neg hc]
    exact masterConcl_completeRun _ _ _ _ _ _ hsfid hinv

theorem masterConcl_dispatch (est : List Product → Nat) (sid : String) (sf : Storefront)
    (r : FetchResponse) (rest : List FetchStep) (sigs : List Sig)
    (cursor : BackupCursor) (seen : List String) (st : RSt)
    (hsfid : sf.id = sid)
    (hcid : cursor.storefront_id = sid)
    (hsf : (getStorefrontD st.db sid).isSome = true)
    (hcur : (getBackupCursorD st.db sid).isSome = true)
    (hinv : invSeenNull sid seen st.db.products)
    (IH : ∀ (cursor' : BackupCursor) (seen' : List String) (st' : RSt),
      cursor'.storefront_id = sid →
      (getStorefrontD st'.db sid).isSome = true →
      (getBackupCursorD st'.db sid).isSome = true →
      invSeenNull sid seen' st'.db.products →
      MasterConcl sid seen' st' (loop est sid sf sigs.tail rest cursor' seen' st')) :
    MasterConcl sid seen st
      (match processPage sid r cursor seen st with
       | .doneR res => res
       | .nextPage c' s' st' => loop est sid sf sigs.tail rest c' s' st'
       | .lastPage c' s' st' => postLoopNatural est sid sf sigs.tail c' s' st') := by
  unfold processPage
  by_cases h200 : r.status ≠ 200
  · rw [if_pos h200]
    exact masterConcl_httpError sid r cursor seen st hsf hcur
  · rw [if_neg h200]
    cases hdata : r.body.data with
    | none => exact masterConcl_noData sid cursor seen st hsf hcur
    | some d =>
      show MasterConcl sid seen st
        (match applyPageOk sid d cursor seen st with
         | .doneR res => res
         | .nextPage c' s' st' => loop est sid sf sigs.tail rest c' s' st'
         | .lastPage c' s' st' => postLoopNatural est sid sf sigs.tail c' s' st')
      unfold applyPageOk
      have hprod' : (pageSt sid d cursor st).db.products =
          putProductsL (pageProducts sid d st) st.db.products := pageSt_products sid d cursor st
      have hsf' : (getStorefrontD (pageSt sid d cursor st).db sid).isSome = true := by
        rw [getStorefrontD_congr (pageSt_storefronts sid d cursor st)]
        exact hsf
      have hcur' : (getBackupCursorD (pageSt sid d cursor st).db sid).isSome = true := by
        have hl := pageSt_cursorLookup sid d cursor st
        rw [show (pageCursor d cursor).storefront_id = sid from hcid] at hl
        rw [hl]
        rfl
      have hinv' : invSeenNull sid (pageSeen sid d seen st) (pageSt sid d cursor st).db.products := by
        rw [hprod']
        exact invSeenNull_page sid d seen st hinv
      have hmono : ∀ x ∈ seen, x ∈ pageSeen sid d seen st :=
        fun x hx => List.mem_append.mpr (Or.inl hx)
      have hids : ∀ x ∈ (pageProducts sid d st).map Product.id, x ∈ pageSeen sid d seen st :=
        fun x hx => List.mem_append.mpr (Or.inr hx)
      have hnew : ∀ p ∈ (pageSt sid d cursor st).db.products, p.removed_at ≠ none →
          p ∈ st.db.products := by
        intro p hp hne
        rw [hprod'] at hp
        exact newTomb_page hp hne
      have hpres : ∀ p ∈ st.db.products, p.id ∉ (pageProducts sid d st).map Product.id →
          p ∈ (pageSt sid d cursor st).db.products := by
        intro p hp hnid
        rw [hprod']
        exact mem_putProductsL_of_ne hp hnid
      by_cases hnext : d.products.pageInfo.hasNextPage = true
      · rw [if_pos hnext]
        exact masterConcl_compose ((pageProducts sid d st).map Product.id)
          (IH (pageCursor d cursor) (pageSeen sid d seen st)
            { pageSt sid d cursor st with sleeps := (pageSt sid d cursor st).sleeps ++ [(500 : Int)] }
            hcid hsf' hcur' hinv')
          hmono hnew hpres hids
      · rw [if_neg hnext]
        exact masterConcl_compose ((pageProducts sid d st).map Product.id)
          (masterConcl_postLoopNatural est sid sf sigs.tail (pageCursor d cursor)
            (pageSeen sid d seen st) (pageSt sid d cursor st) hsfid hsf' hcur' hinv')
          hmono hnew hpres hids

theorem masterConcl_loopNil (est : List Product → Nat) (sid : String) (sf : Storefront)
    (sigs : List Sig) (cursor : BackupCursor) (seen : List String) (st : RSt)
    (hsfid : sf.id = sid)
    (hsf : (getStorefrontD st.db sid).isSome = true)
    (hcur : (getBackupCursorD st.db sid).isSome = true) :
    MasterConcl sid seen st (loop est sid sf sigs [] cursor seen st) := by
  simp only [loop]
  by_cases hflag : ((sigs.headD noSig).pausedF || (sigs.headD noSig).cancelledF) = true
  · rw [if_pos hflag]
    exact masterConcl_postLoopSignal _ _ _ _ _ _ hsfid hsf hcur
  · rw [if_neg hflag]
    exact masterConcl_handleCatch _ _ _ _ _ _ hsf hcur

theorem masterConcl_loopThrow (est : List Product → Nat) (sid : String) (sf : Storefront)
    (sigs : List Sig) (name msg : String) (rest : List FetchStep)
    (cursor : BackupCursor) (seen : List String) (st : RSt)
    (hsfid : sf.id = sid)
    (hsf : (getStorefrontD st.db sid).isSome = true)
    (hcur : (getBackupCursorD st.db sid).isSome = true) :
    MasterConcl sid seen st (loop est sid sf sigs (.throwErr name msg :: rest) cursor seen st) := by
  simp only [loop]
  by_cases hflag : ((sigs.headD noSig).pausedF || (sigs.headD noSig).cancelledF) = true
  · rw [if_pos hflag]
    exact masterConcl_postLoopSignal _ _ _ _ _ _ hsfid hsf hcur
  · rw [if_neg hflag]
    exact masterConcl_handleCatch _ _ _ _ _ _ hsf hcur

/-- The loop invariant theorem: from any loop state whose store has this
storefront's record and cursor present, and in which every already-observed id
of this storefront is stored un-deleted, the loop's result satisfies
`MasterConcl` for every flag schedule and fetch script. -/
theorem loop_master (est : List Product → Nat) (sid : String) (sf : Storefront)
    (hsfid : sf.id = sid) :
    ∀ (n : Nat) (script : List FetchStep), script.length ≤ n →
    ∀ (sigs : List Sig) (cursor : BackupCursor) (seen : List String) (st : RSt),
      cursor.storefront_id = sid →
      (getStorefrontD st.db sid).isSome = true →
      (getBackupCursorD st.db sid).isSome = true →
      invSeenNull sid seen st.db.products →
      MasterConcl sid seen st (loop est sid sf sigs script cursor seen st) := by
  intro n
  induction n with
  | zero =>
    intro script hlen sigs cursor seen st hcid hsf hcur hinv
    have hs : script = [] := List.length_eq_zero.mp (Nat.le_zero.mp hlen)
    subst hs
    exact masterConcl_loopNil est sid sf sigs cursor seen st hsfid hsf hcur
  | succ n ih =>
    intro script hlen sigs cursor seen st hcid hsf hcur hinv
    cases script with
    | nil => exact masterConcl_loopNil est sid sf sigs cursor seen st hsfid hsf hcur
    | cons s1 rest1 =>
      cases s1 with
      | throwErr name msg =>
        exact masterConcl_loopThrow est sid sf sigs name msg rest1 cursor seen st hsfid hsf hcur
      | resp r1 =>
        simp only [loop]
        by_cases hflag : ((sigs.headD noSig).pausedF || (sigs.headD noSig).cancelledF) = true
        · rw [if_pos hflag]
          exact masterConcl_postLoopSignal _ _ _ _ _ _ hsfid hsf hcur
        · rw [if_neg hflag]
          by_cases hthr : isThrottledResp r1 = true
          · rw [if_pos hthr]
            split
            · exact masterConcl_handleCatch _ _ _ _ _ _ hsf hcur
            · exact masterConcl_handleCatch _ _ _ _ _ _ hsf hcur
            · next r2 rest2 =>
              by_cases hthr2 : isThrottledResp r2 = true
              · rw [if_pos hthr2]
                exact masterConcl_throttleAbort _ _ _ _ hsf hcur
              · rw [if_neg hthr2]
                have hlen2 : rest2.length ≤ n := by
                  simp only [List.length_cons] at hlen
                  omega
                exact masterConcl_dispatch est sid sf r2 rest2 sigs cursor seen _
                  hsfid hcid hsf hcur hinv
                  (fun c' s' st' h1 h2 h3 h4 => ih rest2 hlen2 sigs.tail c' s' st' h1 h2 h3 h4)
          · rw [if_neg hthr]
            have hlen1 : rest1.length ≤ n := by
              simp only [List.length_cons] at hlen
              omega
            exact masterConcl_dispatch est sid sf r1 rest1 sigs cursor seen _
              hsfid hcid hsf hcur hinv
              (fun c' s' st' h1 h2 h3 h4 => ih rest1 hlen1 sigs.tail c' s' st' h1 h2 h3 h4)

/-! # Lifting the loop invariant to `run` -/

theorem getBackupCursorD_key {db : DB} {sid : String} {c : BackupCursor}
    (h : getBackupCursorD db sid = some c) : c.storefront_id = sid :=
  lookupRecord_key h

theorem isSome_getStorefrontD_put (db : DB) (s : Storefront) {key : String} (hk : s.id = key) :
    (getStorefrontD (putStorefrontD db s) key).isSome = true := by
  rw [getStorefrontD_putStorefrontD_key db s hk]
  rfl

theorem isSome_getBackupCursorD_put (db : DB) (c : BackupCursor) {key : String}
    (hk : c.storefront_id = key) : (getBackupCursorD (putBackupCursorD db c) key).isSome = true := by
  subst hk
  rw [getBackupCursorD_putBackupCursorD_self]
  rfl

theorem invSeenNull_nil (sid : String) (ps : List Product) : invSeenNull sid [] ps :=
  fun _ _ _ hin => absurd hin (List.not_mem_nil _)

theorem isSome_of_cursor_eq {db : DB} {sid : String} {c : BackupCursor}
    (h : getBackupCursorD db sid = some c) : (getBackupCursorD db sid).isSome = true := by
  rw [h]
  rfl

theorem getBackupCursorD_putStorefrontD (db : DB) (s : Storefront) (sid : String) :
    getBackupCursorD (putStorefrontD db s) sid = getBackupCursorD db sid := rfl

theorem runConcl_of_master {sid : String} {st0 : RSt} {db0 : DB} {r : RunResult}
    (hps : st0.db.products = db0.products)
    (h : MasterConcl sid [] st0 r) : RunConcl sid db0 r := by
  obtain ⟨_, c1, c2, c3, c4, c5⟩ := h
  unfold RunConcl
  rw [← hps]
  exact ⟨c1, c2, c3, c4, c5⟩

/-- Every run satisfies `RunConcl`: the conclusions of the loop invariant hold
relative to the pre-run store. -/
theorem run_master (est : List Product → Nat) (sid : String) (sigs : List Sig)
    (script : List FetchStep) (db0 : DB) (clock0 : Nat) :
    RunConcl sid db0 (run est sid sigs script db0 clock0) := by
  simp only [run, tickS]
  cases hsf0 : getStorefrontD db0 sid with
  | none =>
    simp only [getBackupCursorD_putStorefrontD]
    cases hcur0 : getBackupCursorD db0 sid with
    | none =>
      exact runConcl_of_master rfl
        (loop_master est sid _ rfl script.length script le_rfl sigs _ [] _
          rfl (isSome_getStorefrontD_put db0 _ rfl) (isSome_getBackupCursorD_put _ _ rfl)
          (invSeenNull_nil sid _))
    | some c =>
      have hcid : c.storefront_id = sid := getBackupCursorD_key hcur0
      show RunConcl sid db0 (loop _ _ _ _ _ _ _ _)
      by_cases hcc : c.cursor.isSome = true
      · rw [if_pos hcc]
        exact runConcl_of_master rfl
          (loop_master est sid _ rfl script.length script le_rfl sigs _ [] _
            hcid (isSome_getStorefrontD_put db0 _ rfl) (isSome_of_cursor_eq hcur0)
            (invSeenNull_nil sid _))
      · rw [if_neg hcc]
        exact runConcl_of_master rfl
          (loop_master est sid _ rfl script.length script le_rfl sigs _ [] _
            hcid (isSome_getStorefrontD_put db0 _ rfl) (isSome_of_cursor_eq hcur0)
            (invSeenNull_nil sid _))
  | some s =>
    have hsid : s.id = sid := getStorefrontD_key hsf0
    have hsid' : (Storefront.mk s.id s.domain s.last_backup_at .inProgress
        s.product_count s.size_bytes s.created_at).id = sid := hsid
    simp only [getBackupCursorD_putStorefrontD]
    cases hcur0 : getBackupCursorD db0 sid with
    | none =>
      exact runConcl_of_master rfl
        (loop_master est sid _ hsid' script.length script le_rfl sigs _ [] _
          rfl (isSome_getStorefrontD_put db0 _ hsid') (isSome_getBackupCursorD_put _ _ rfl)
          (invSeenNull_nil sid _))
    | some c =>
      have hcid : c.storefront_id = sid := getBackupCursorD_key hcur0
      show RunConcl sid db0 (loop _ _ _ _ _ _ _ _)
      by_cases hcc : c.cursor.isSome = true
      · rw [if_pos hcc]
        exact runConcl_of_master rfl
          (loop_master est sid _ hsid' script.length script le_rfl sigs _ [] _
            hcid (isSome_getStorefrontD_put db0 _ hsid') (isSome_of_cursor_eq hcur0)
            (invSeenNull_nil sid _))
      · rw [if_neg hcc]
        exact runConcl_of_master rfl
          (loop_master est sid _ hsid' script.length script le_rfl sigs _ [] _
            hcid (isSome_getStorefrontD_put db0 _ hsid') (isSome_of_cursor_eq hcur0)
            (invSeenNull_nil sid _))

/-! # Products-preservation equalities for each terminal branch -/

theorem handleCatch_products (sid name msg : String) (cursor : BackupCursor)
    (seen : List String) (st : RSt) :
    (handleCatch sid name msg cursor seen st).st.db.products = st.db.products := by
  unfold handleCatch
  split
  · exact markPartialS_products st sid
  · exact markPartialS_products st sid

theorem handleCatch_outcome (sid name msg : String) (cursor : BackupCursor)
    (seen : List String) (st : RSt) :
    (handleCatch sid name msg cursor seen st).outcome = .exceptionOut name msg := by
  unfold handleCatch
  split <;> rfl

theorem postLoopSignal_products (sid : String) (sf : Storefront) (sg : Sig)
    (cursor : BackupCursor) (seen : List String) (st : RSt) :
    (postLoopSignal sid sf sg cursor seen st).st.db.products = st.db.products := by
  unfold postLoopSignal
  split
  · exact markPartialS_products st sid
  · rfl

theorem throttleAbort_products (sid : String) (cursor : BackupCursor)
    (seen : List String) (st : RSt) :
    (throttleAbortResult sid cursor seen st).st.db.products = st.db.products :=
  markPartialS_products _ sid

theorem httpError_products (sid : String) (r : FetchResponse) (cursor : BackupCursor)
    (seen : List String) (st : RSt) :
    (httpErrorResult sid r cursor seen st).st.db.products = st.db.products :=
  markPartialS_products _ sid

theorem noData_products (sid : String) (cursor : BackupCursor)
    (seen : List String) (st : RSt) :
    (noDataResult sid cursor seen st).st.db.products = st.db.products :=
  markPartialS_products _ sid

theorem completeRun_products (est : List Product → Nat) (sid : String) (sf : Storefront)
    (cursor : BackupCursor) (seen : List String) (st : RSt) :
    (completeRun est sid sf cursor seen st).st.db.products =
      markProductsRemoved sid seen (toString st.clock) st.db.products := rfl

/-! # A fresh store stays tombstone-free -/

theorem nullInv_mark {sid : String} {seen : List String} {ts : String} {ps : List Product}
    (hI : ∀ p ∈ ps, p.removed_at = none ∧ p.id ∈ seen) :
    ∀ p ∈ markProductsRemoved sid seen ts ps, p.removed_at = none := by
  intro p hp
  rcases List.mem_map.mp hp with ⟨q, hq, hqe⟩
  by_cases hcond :
      (q.storefront_id == sid && !(seen.contains q.id) && q.removed_at.isNone) = true
  · exfalso
    have h2 := (Bool.and_eq_true_iff.mp hcond).1
    have h3 := (Bool.and_eq_true_iff.mp h2).2
    have hnot : q.id ∉ seen := by simpa using h3
    exact hnot (hI q hq).2
  · rw [if_neg hcond] at hqe
    subst hqe
    exact (hI q hq).1

theorem nullInv_pageStep {sid : String} {d : GqlProductsData} {seen : List String} {st : RSt}
    (hI : ∀ p ∈ st.db.products, p.removed_at = none ∧ p.id ∈ seen) :
    ∀ p ∈ putProductsL (pageProducts sid d st) st.db.products,
      p.removed_at = none ∧ p.id ∈ pageSeen sid d seen st := by
  intro p hp
  rcases mem_putProductsL hp with hnew | ⟨hold, _⟩
  · refine ⟨pageProducts_removed hnew, List.mem_append.mpr (Or.inr ?_)⟩
    exact List.mem_map.mpr ⟨p, hnew, rfl⟩
  · obtain ⟨h1, h2⟩ := hI p hold
    exact ⟨h1, List.mem_append.mpr (Or.inl h2)⟩

theorem nullInv_postLoopNatural (est : List Product → Nat) (sid : String) (sf : Storefront)
    (sigs : List Sig) (cursor : BackupCursor) (seen : List String) (st : RSt)
    (hI : ∀ p ∈ st.db.products, p.removed_at = none ∧ p.id ∈ seen) :
    ∀ p ∈ (postLoopNatural est sid sf sigs cursor seen st).st.db.products,
      p.removed_at = none := by
  intro p hp
  have hp' : p ∈ (if ((sigs.headD noSig).cancelledF || (sigs.headD noSig).pausedF) = true
      then postLoopSignal sid sf (sigs.headD noSig) cursor seen st
      else completeRun est sid sf cursor seen st).st.db.products := hp
  split at hp'
  · rw [postLoopSignal_products] at hp'
    exact (hI p hp').1
  · rw [completeRun_products] at hp'
    exact nullInv_mark hI p hp'

theorem nullInv_dispatch (est : List Product → Nat) (sid : String) (sf : Storefront)
    (r : FetchResponse) (rest : List FetchStep) (sigs : List Sig)
    (cursor : BackupCursor) (seen : List String) (st : RSt)
    (hI : ∀ p ∈ st.db.products, p.removed_at = none ∧ p.id ∈ seen)
    (IH : ∀ (cursor' : BackupCursor) (seen' : List String) (st' : RSt),
      (∀ p ∈ st'.db.products, p.removed_at = none ∧ p.id ∈ seen') →
      ∀ p ∈ (loop est sid sf sigs.tail rest cursor' seen' st').st.db.products,
        p.removed_at = none) :
    ∀ p ∈ (match processPage sid r cursor seen st with
           | .doneR res => res
           | .nextPage c' s' st' => loop est sid sf sigs.tail rest c' s' st'
           | .lastPage c' s' st' =>
             postLoopNatural est sid sf sigs.tail c' s' st').st.db.products,
      p.removed_at = none := by
  unfold processPage
  by_cases h200 : r.status ≠ 200
  · rw [if_pos h200]
    intro p hp
    rw [httpError_products] at hp
    exact (hI p hp).1
  · rw [if_neg h200]
    cases hdata : r.body.data with
    | none =>
      intro p hp
      rw [noData_products] at hp
      exact (hI p hp).1
    | some d =>
      show ∀ p ∈ (match applyPageOk sid d cursor seen st with
        | .doneR res => res
        | .nextPage c' s' st' => loop est sid sf sigs.tail rest c' s' st'
        | .lastPage c' s' st' =>
          postLoopNatural est sid sf sigs.tail c' s' st').st.db.products,
        p.removed_at = none
      unfold applyPageOk
      by_cases hnext : d.products.pageInfo.hasNextPage = true
      · rw [if_pos hnext]
        exact IH (pageCursor d cursor) (pageSeen sid d seen st) _ (nullInv_pageStep hI)
      · rw [if_neg hnext]
        exact nullInv_postLoopNatural est sid sf sigs.tail (pageCursor d cursor)
          (pageSeen sid d seen st) _ (nullInv_pageStep hI)

theorem loop_nullInv (est : List Product → Nat) (sid : String) (sf : Storefront) :
    ∀ (n : Nat) (script : List FetchStep), script.length ≤ n →
    ∀ (sigs : List Sig) (cursor : BackupCursor) (seen : List String) (st : RSt),
      (∀ p ∈ st.db.products, p.removed_at = none ∧ p.id ∈ seen) →
      ∀ p ∈ (loop est sid sf sigs script cursor seen st).st.db.products,
        p.removed_at = none := by
  have hsig : ∀ (sg : Sig) (cursor : BackupCursor) (seen : List String) (st : RSt),
      (∀ p ∈ st.db.products, p.removed_at = none ∧ p.id ∈ seen) →
      ∀ p ∈ (postLoopSignal sid sf sg cursor seen st).st.db.products, p.removed_at = none := by
    intro sg cursor seen st hI p hp
    rw [postLoopSignal_products] at hp
    exact (hI p hp).1
  have hcatch : ∀ (name msg : String) (cursor : BackupCursor) (seen : List String) (st : RSt),
      (∀ p ∈ st.db.products, p.removed_at = none ∧ p.id ∈ seen) →
      ∀ p ∈ (handleCatch sid name msg cursor seen st).st.db.products, p.removed_at = none := by
    intro name msg cursor seen st hI p hp
    rw [handleCatch_products] at hp
    exact (hI p hp).1
  intro n
  induction n with
  | zero =>
    intro script hlen sigs cursor seen st hI
    have hs : script = [] := List.length_eq_zero.mp (Nat.le_zero.mp hlen)
    subst hs
    simp only [loop]
    split
    · exact hsig _ cursor seen st hI
    · exact hcatch _ _ cursor seen _ hI
  | succ n ih =>
    intro script hlen sigs cursor seen st hI
    cases script with
    | nil =>
      simp only [loop]
      split
      · exact hsig _ cursor seen st hI
      · exact hcatch _ _ cursor seen _ hI
    | cons s1 rest1 =>
      cases s1 with
      | throwErr name msg =>
        simp only [loop]
        split
        · exact hsig _ cursor seen st hI
        · exact hcatch _ _ cursor seen _ hI
      | resp r1 =>
        simp only [loop]
        split
        · exact hsig _ cursor seen st hI
        · by_cases hthr : isThrottledResp r1 = true
          · rw [if_pos hthr]
            split
            · exact hcatch _ _ cursor seen _ hI
            · exact hcatch _ _ cursor seen _ hI
            · next r2 rest2 =>
              by_cases hthr2 : isThrottledResp r2 = true
              · rw [if_pos hthr2]
                intro p hp
                rw [throttleAbort_products] at hp
                exact (hI p hp).1
              · rw [if_neg hthr2]
                have hlen2 : rest2.length ≤ n := by
                  simp only [List.length_cons] at hlen
                  omega
                exact nullInv_dispatch est sid sf r2 rest2 sigs cursor seen _ hI
                  (fun c' s' st' h => ih rest2 hlen2 sigs.tail c' s' st' h)
          · rw [if_neg hthr]
            have hlen1 : rest1.length ≤ n := by
              simp only [List.length_cons] at hlen
              omega
            exact nullInv_dispatch est sid sf r1 rest1 sigs cursor seen _ hI
              (fun c' s' st' h => ih rest1 hlen1 sigs.tail c' s' st' h)

theorem run_nullInv (est : List Product → Nat) (sid : String) (sigs : List Sig)
    (script : List FetchStep) (clock0 : Nat) :
    ∀ p ∈ (run est sid sigs script emptyDB clock0).st.db.products, p.removed_at = none :=
  loop_nullInv est sid _ script.length script le_rfl sigs _ [] _
    (fun p hp => absurd hp (List.not_mem_nil p))

/-! # Claim theorems -/

/-- Claim C2 (code bug): the registry does not enforce at-most-one active run
per storefront. Calling `startBackup` twice for the same storefront leaves two
run loops in flight (the second engine overwrites the registry entry), and
`resumeBackup` on a storefront whose engine is active re-invokes `run`, also
yielding two loops — contradicting the claimed single-run guarantee. -/
theorem claim2_no_single_run_guarantee :
    activeLoopsFor "shop.example"
      (startBackupM "shop.example" (startBackupM "shop.example" emptySys)) = 2 ∧
    activeLoopsFor "shop.example"
      (resumeBackupM "shop.example" (startBackupM "shop.example" emptySys)) = 2 ∧
    (startBackupM "shop.example" (startBackupM "shop.example" emptySys)).registry =
      [("shop.example", 1)] := by decide

/-- Claim C7 (counterexample): the transform is not deterministic on its page
record + storefront id input alone — it reads the clock for
`sniffer_updated_at`, so two applications to identical input at different
instants produce different Entity records. -/
theorem claim7_counterexample :
    transformProduct "s" (mkNode "1") "0" ≠ transformProduct "s" (mkNode "1") "1" := by decide

/-- Claim C7 (amended): the transform has no effect other than reading the
clock (modelled as the explicit `now` parameter): all fields except
`sniffer_updated_at` are a pure function of the storefront id and page record,
and `sniffer_updated_at` is exactly the clock reading. -/
theorem claim7_amended (sid : String) (node : GqlProductNode) (t1 t2 : String) :
    { transformProduct sid node t1 with sniffer_updated_at := "" } =
      { transformProduct sid node t2 with sniffer_updated_at := "" } ∧
    (transformProduct sid node t1).sniffer_updated_at = t1 :=
  ⟨rfl, rfl⟩

/-- Claim C8 (counterexample): on a raw record whose nested `images` collection
is missing, the transform fails (JS: reading `.nodes` of `undefined` throws)
instead of substituting an empty collection. -/
theorem claim8_counterexample :
    transformProductRaw "s" rawNodeNoImages "0" =
      .error "TypeError: cannot read nodes of undefined (images)" := rfl

/-- Claim C8 (amended): when the nested `images`/`variants` collections are
present, the transform is total and substitutes null for every missing
optional scalar: absent alt text, compare-at price, weight, weight unit, and
missing variant options all become `none`, and the record is produced with
`removed_at = null`. -/
theorem claim8_amended (sid now : String) (node : RawProductNode)
    (imgs : GqlNodes GqlImageNode) (vars : GqlNodes GqlVariantNode)
    (h1 : node.images = some imgs) (h2 : node.variants = some vars) :
    ∃ p : Product, transformProductRaw sid node now = .ok p ∧
      p.images = imgs.nodes.map (fun img => ⟨img.url, img.altText, img.width, img.height⟩) ∧
      p.variants = vars.nodes.map (fun v =>
        ⟨v.id, v.title, v.sku, v.price.amount, v.compareAtPrice.map (fun m => m.amount), none,
         v.weight, v.weightUnit,
         (v.selectedOptions.get? 0).map (fun o => o.value),
         (v.selectedOptions.get? 1).map (fun o => o.value),
         (v.selectedOptions.get? 2).map (fun o => o.value)⟩) ∧
      p.removed_at = none := by
  cases node
  cases h1
  cases h2
  exact ⟨_, rfl, rfl, rfl, rfl⟩

/-- Claim C8 (witness): the amended theorem applied to a concrete raw record
with both collections present, a variant without compare-at price/options, and
an image without alt text. -/
theorem claim8_witness :
    ∃ p : Product, transformProductRaw "s" rawNodeFull "0" = .ok p ∧
      p.removed_at = none := by
  obtain ⟨p, hok, _, _, hrm⟩ := claim8_amended "s" "0" rawNodeFull _ _ rfl rfl
  exact ⟨p, hok, hrm⟩

/-- Claim C9 (counterexample): `resume()` is not idempotent — it re-invokes
`run()` on every call, so two successive resumes leave one more run loop in
flight than a single resume. -/
theorem claim9_counterexample : resumeE (resumeE engine0) ≠ resumeE engine0 := by decide

/-- Claim C9 (amended): `pause()` and `cancel()` are idempotent (they only set
a flag); `resume()` is not — each invocation fires another `run()`, so a
second resume spawns an additional concurrent run loop. -/
theorem claim9_amended (e : EngineSt) :
    pauseE (pauseE e) = pauseE e ∧ cancelE (cancelE e) = cancelE e ∧
    resumeE (resumeE e) ≠ resumeE e := by
  refine ⟨rfl, rfl, fun h => ?_⟩
  have h2 := congrArg EngineSt.runLoops h
  simp [resumeE] at h2

/-- Claim C9 (witness): the amended theorem at a concrete engine instance. -/
theorem claim9_witness :
    pauseE (pauseE engine0) = pauseE engine0 ∧ cancelE (cancelE engine0) = cancelE engine0 ∧
    resumeE (resumeE engine0) ≠ resumeE engine0 :=
  claim9_amended engine0

/-- Claim C10: the transform always emits `removed_at = null` and the composite
key `{storefront_id}::{source_id}`; upserting a fetched page therefore
overwrites every stored entity whose key matches a page record — in particular
a previously soft-deleted entity that reappears becomes active again — and an
entity with that key exists afterwards. -/
theorem claim10_resurrection (sid now : String) (node : GqlProductNode)
    (page : List GqlProductNode) (prods : List Product) (clock : Nat)
    (hmem : node ∈ page) :
    (transformProduct sid node now).removed_at = none ∧
    (transformProduct sid node now).id = sid ++ "::" ++ node.id ∧
    (∀ q ∈ putProductsL (transformPage sid page clock).1 prods,
        q.id = sid ++ "::" ++ node.id → q.removed_at = none) ∧
    (∃ q ∈ putProductsL (transformPage sid page clock).1 prods,
        q.id = sid ++ "::" ++ node.id) := by
  have hkey : (sid ++ "::" ++ node.id) ∈ (transformPage sid page clock).1.map Product.id := by
    rw [transformPage_ids]
    exact List.mem_map.mpr ⟨node, hmem, rfl⟩
  refine ⟨rfl, rfl, ?_, ?_⟩
  · intro q hq hqid
    rcases mem_putProductsL hq with hnew | ⟨_, hnid⟩
    · rcases transformPage_mem hnew with ⟨m, _, t, rfl⟩
      rfl
    · exact absurd (by rw [hqid]; exact hkey) hnid
  · exact exists_key_putProductsL prods hkey

/-- Claim C10 (witness): a page containing the record of the soft-deleted
`prodX` upserted over a store holding `prodX` leaves every record under that
key active. -/
theorem claim10_witness :
    (∀ q ∈ putProductsL (transformPage "s" [mkNode "1"] 0).1 [prodX],
        q.id = "s" ++ "::" ++ (mkNode "1").id → q.removed_at = none) ∧
    (∃ q ∈ putProductsL (transformPage "s" [mkNode "1"] 0).1 [prodX],
        q.id = "s" ++ "::" ++ (mkNode "1").id) := by
  have h := claim10_resurrection "s" "0" (mkNode "1") [mkNode "1"] [prodX] 0 (by decide)
  exact ⟨h.2.2.1, h.2.2.2⟩

/-- Claim C1 (counterexample): a run that ends paused does modify an entity's
`removed_at` — a previously soft-deleted entity (`removed_at = "9"`) that
reappears in a page fetched before the pause is overwritten by the upsert with
`removed_at = null`. -/
theorem claim1_counterexample :
    (run est0 "s" sigsPause [okPage [mkNode "1"] true (some "c1")] dbX 0).outcome = .pausedOut ∧
    dbX.products.map (fun p => (p.id, p.removed_at)) =
      [("s::gid://shopify/Product/1", some "9")] ∧
    (run est0 "s" sigsPause [okPage [mkNode "1"] true (some "c1")] dbX 0).st.db.products.map
        (fun p => (p.id, p.removed_at)) =
      [("s::gid://shopify/Product/1", none)] := by decide

/-- Claim C1 (amended): after natural completion the active set equals the
observed set — every stored entity of the storefront has `removed_at = null`
iff its id was observed, and every entity that was active before the run and
was not observed is stored with `removed_at` equal to the completion
timestamp. After any other outcome the reconciliation is skipped: no entity is
newly soft-deleted (every stored entity with non-null `removed_at` was already
in the pre-run store unchanged); an entity's `removed_at` can change only by
being reset to null when the entity appears in an upserted page. -/
theorem claim1_amended (est : List Product → Nat) (sid : String) (sigs : List Sig)
    (script : List FetchStep) (db0 : DB) (clock0 : Nat) :
    ((run est sid sigs script db0 clock0).outcome = .completed →
      ∃ t, (run est sid sigs script db0 clock0).completedAt = some t ∧
        (∀ p ∈ (run est sid sigs script db0 clock0).st.db.products, p.storefront_id = sid →
          (p.removed_at = none ↔ p.id ∈ (run est sid sigs script db0 clock0).seen)) ∧
        (∀ p ∈ db0.products, p.storefront_id = sid →
          p.id ∉ (run est sid sigs script db0 clock0).seen → p.removed_at = none →
          { p with removed_at := some t } ∈
            (run est sid sigs script db0 clock0).st.db.products)) ∧
    ((run est sid sigs script db0 clock0).outcome ≠ .completed →
      ∀ p ∈ (run est sid sigs script db0 clock0).st.db.products, p.removed_at ≠ none →
        p ∈ db0.products) := by
  obtain ⟨c1, c2, _, _, _⟩ := run_master est sid sigs script db0 clock0
  refine ⟨fun h => ?_, c2⟩
  obtain ⟨t, h1, h2, h3, _, _⟩ := c1 h
  exact ⟨t, h1, h2, h3⟩

/-- Claim C1 (witness): the amended theorem applied to a completed run over a
store holding the active, unobserved `prodY`: the run completes and `prodY` is
stored soft-deleted at the completion timestamp. -/
theorem claim1_witness :
    (run est0 "s" [] [okPage [mkNode "2"] false none] dbY 0).outcome = .completed ∧
    { prodY with removed_at := some "3" } ∈
      (run est0 "s" [] [okPage [mkNode "2"] false none] dbY 0).st.db.products := by
  have h := (claim1_amended est0 "s" [] [okPage [mkNode "2"] false none] dbY 0).1 (by decide)
  obtain ⟨t, ht, _, h3⟩ := h
  have ht' : (run est0 "s" [] [okPage [mkNode "2"] false none] dbY 0).completedAt =
      some "3" := by decide
  rw [ht] at ht'
  have hteq : t = "3" := Option.some.inj ht'
  subst hteq
  exact ⟨by decide, h3 prodY (by decide) (by decide) (by decide) rfl⟩

/-- Claim C3 (counterexample): after a run that ends partial through throttle
exhaustion, `backup_status = partial` while the BackupCursor still exists —
contradicting "partial ⇒ cursor absent". -/
theorem claim3_counterexample :
    statusOf (run est0 "s" [] [thrStep none, thrStep none] emptyDB 0).st.db "s" =
      some .partialS ∧
    (getBackupCursorD (run est0 "s" [] [thrStep none, thrStep none] emptyDB 0).st.db
      "s").isSome = true := by decide

/-- Claim C3 (amended): completion deletes the cursor and sets `complete`;
pause keeps the cursor and sets `paused`; cancel deletes the cursor and sets
`partial`; every error outcome (throttle exhaustion, HTTP error, missing
payload, exception) sets `partial` but retains the cursor for resumability. -/
theorem claim3_amended (est : List Product → Nat) (sid : String) (sigs : List Sig)
    (script : List FetchStep) (db0 : DB) (clock0 : Nat) :
    ((run est sid sigs script db0 clock0).outcome = .completed →
      statusOf (run est sid sigs script db0 clock0).st.db sid = some .complete ∧
      getBackupCursorD (run est sid sigs script db0 clock0).st.db sid = none) ∧
    ((run est sid sigs script db0 clock0).outcome = .pausedOut →
      statusOf (run est sid sigs script db0 clock0).st.db sid = some .pausedS ∧
      (getBackupCursorD (run est sid sigs script db0 clock0).st.db sid).isSome = true) ∧
    ((run est sid sigs script db0 clock0).outcome = .cancelledOut →
      statusOf (run est sid sigs script db0 clock0).st.db sid = some .partialS ∧
      getBackupCursorD (run est sid sigs script db0 clock0).st.db sid = none) ∧
    (errOutcome (run est sid sigs script db0 clock0).outcome = true →
      statusOf (run est sid sigs script db0 clock0).st.db sid = some .partialS ∧
      (getBackupCursorD (run est sid sigs script db0 clock0).st.db sid).isSome = true) := by
  obtain ⟨c1, _, c3, c4, c5⟩ := run_master est sid sigs script db0 clock0
  refine ⟨fun h => ?_, c3, c4, c5⟩
  obtain ⟨t, _, _, _, h4, h5⟩ := c1 h
  exact ⟨h4, h5⟩

/-- Claim C3 (witness): the amended theorem applied to a paused run — status
`paused` with the cursor still present. -/
theorem claim3_witness :
    statusOf (run est0 "s" sigsPause [okPage [mkNode "1"] true (some "c1")] dbX 0).st.db "s" =
      some .pausedS ∧
    (getBackupCursorD
      (run est0 "s" sigsPause [okPage [mkNode "1"] true (some "c1")] dbX 0).st.db
      "s").isSome = true :=
  (claim3_amended est0 "s" sigsPause [okPage [mkNode "1"] true (some "c1")] dbX 0).2.1
    (by decide)

/-- Claim C5 (counterexample): in the fresh 3-pages-of-2 scenario,
`total_products` is never set — the query does not request a total count and
no code assigns it — so it is still `null` at the end (not 6), and every
progress callback received 0 as its estimated total (not 6). -/
theorem claim5_counterexample :
    (run est0 "s" [] scriptC5 emptyDB 0).cursorFinal.total_products = none ∧
    (run est0 "s" [] scriptC5 emptyDB 0).cursorFinal.total_products ≠ some 6 ∧
    (run est0 "s" [] scriptC5 emptyDB 0).st.progressCalls = [(2, 0), (4, 0), (6, 0)] := by
  decide

/-- Claim C5 (amended): for a fresh backup whose catalog API returns 3 pages
of 2 records each with no errors, the run completes with `products_fetched =
6` and `backup_status = complete`, no stored entity has a non-null
`removed_at`, but `total_products` is never set — it remains `null`
throughout (the products query requests no total count and nothing assigns
it), so every per-page progress callback receives `(products_fetched, 0)`. -/
theorem claim5_amended (est : List Product → Nat) (sid : String) (clock0 : Nat)
    (a b c d e f : GqlProductNode) (t1 t2 : String) (o3 : Option String) :
    (run est sid [] (fresh3PageScript a b c d e f t1 t2 o3) emptyDB clock0).outcome =
      .completed ∧
    (run est sid [] (fresh3PageScript a b c d e f t1 t2 o3) emptyDB
      clock0).cursorFinal.products_fetched = 6 ∧
    (run est sid [] (fresh3PageScript a b c d e f t1 t2 o3) emptyDB
      clock0).cursorFinal.total_products = none ∧
    (run est sid [] (fresh3PageScript a b c d e f t1 t2 o3) emptyDB
      clock0).st.progressCalls = [(2, 0), (4, 0), (6, 0)] ∧
    statusOf (run est sid [] (fresh3PageScript a b c d e f t1 t2 o3) emptyDB
      clock0).st.db sid = some .complete ∧
    (∀ p ∈ (run est sid [] (fresh3PageScript a b c d e f t1 t2 o3) emptyDB
      clock0).st.db.products, p.removed_at = none) := by
  refine ⟨?_, ?_, ?_, ?_, ?_, run_nullInv est sid [] _ clock0⟩ <;>
    simp [run, loop, processPage, applyPageOk, pageSt, pageCursor, pageSeen, pageProducts,
      transformPage, postLoopNatural, completeRun, postLoopSignal, logTick, logAt, notifyS,
      tickS, addLogD, putProductsD, putBackupCursorD, putStorefrontD, deleteBackupCursorD,
      markProductsRemovedD, getStorefrontD, getBackupCursorD, lookupRecord, putRecord,
      deleteRecord, emptyDB, okPage, fresh3PageScript, noSig, statusOf, isThrottledResp,
      isThrottled]

/-- Claim C5 (witness): the amended theorem at a concrete 3-page catalog. -/
theorem claim5_witness :
    (run est0 "s" [] (fresh3PageScript (mkNode "1") (mkNode "2") (mkNode "3") (mkNode "4")
      (mkNode "5") (mkNode "6") "c1" "c2" none) emptyDB 0).outcome = .completed ∧
    (run est0 "s" [] (fresh3PageScript (mkNode "1") (mkNode "2") (mkNode "3") (mkNode "4")
      (mkNode "5") (mkNode "6") "c1" "c2" none) emptyDB 0).st.progressCalls =
      [(2, 0), (4, 0), (6, 0)] ∧
    (transformProduct "s" (mkNode "1") "2").removed_at = none := by
  have h := claim5_amended est0 "s" 0 (mkNode "1") (mkNode "2") (mkNode "3") (mkNode "4")
    (mkNode "5") (mkNode "6") "c1" "c2" none
  exact ⟨h.1, h.2.2.2.1, h.2.2.2.2.2 (transformProduct "s" (mkNode "1") "2") (by decide)⟩

theorem isThrottledResp_ok (d : Option GqlProductsData) (ra : Option String) :
    isThrottledResp ⟨200, ⟨d, none⟩, ra⟩ = false := rfl

/-- Claim C4: the throttle path. A throttled classification (HTTP 429 or the
payload marker) waits `Retry-After × 1000` ms when the hint parses, else 2000
ms, then retries the identical request (same cursor) exactly once: if the
retry succeeds the run proceeds and completes with exactly that one
inter-attempt delay; if the retry is throttled too, the run ends with
`backup_status = partial` and the persisted cursor exactly as it was
checkpointed before the throttled page. -/
theorem claim4_throttle :
    (∀ (s : String) (n : Int), parseIntJS s = some n → computeWaitMs (some s) = n * 1000) ∧
    (∀ s : String, parseIntJS s = none → computeWaitMs (some s) = 2000) ∧
    computeWaitMs none = 2000 ∧
    (∀ (est : List Product → Nat) (sid : String) (db0 : DB) (clock0 : Nat)
        (r1 r2 : FetchResponse) (ns : List GqlProductNode) (o3 : Option String),
      db0.storefronts = [] → db0.cursors = [] →
      isThrottledResp r1 = true →
      isThrottledResp r2 = false → r2.status = 200 →
      r2.body.data = some ⟨⟨⟨false, o3⟩, ns⟩⟩ →
      (run est sid [] [.resp r1, .resp r2] db0 clock0).outcome = .completed ∧
      (run est sid [] [.resp r1, .resp r2] db0 clock0).st.sleeps =
        [computeWaitMs r1.retryAfter] ∧
      (run est sid [] [.resp r1, .resp r2] db0 clock0).st.requests = [none, none]) ∧
    (∀ (est : List Product → Nat) (sid : String) (db0 : DB) (clock0 : Nat)
        (ns : List GqlProductNode) (e1 : String) (r2 r3 : FetchResponse),
      db0.storefronts = [] → db0.cursors = [] →
      isThrottledResp r2 = true → isThrottledResp r3 = true →
      (run est sid [] [okPage ns true (some e1), .resp r2, .resp r3] db0 clock0).outcome =
        .throttledOut ∧
      (run est sid [] [okPage ns true (some e1), .resp r2, .resp r3] db0 clock0).st.sleeps =
        [500, computeWaitMs r2.retryAfter] ∧
      (run est sid [] [okPage ns true (some e1), .resp r2, .resp r3] db0
        clock0).st.requests = [none, some e1, some e1] ∧
      (getBackupCursorD (run est sid [] [okPage ns true (some e1), .resp r2, .resp r3] db0
        clock0).st.db sid).map (fun cu => (cu.cursor, cu.products_fetched)) =
        some (some e1, ns.length) ∧
      statusOf (run est sid [] [okPage ns true (some e1), .resp r2, .resp r3] db0
        clock0).st.db sid = some .partialS) := by
  refine ⟨?_, ?_, rfl, ?_, ?_⟩
  · intro s n h
    unfold computeWaitMs
    rw [show (some s).getD "" = s from rfl, h]
  · intro s h
    unfold computeWaitMs
    rw [show (some s).getD "" = s from rfl, h]
  · intro est sid db0 clock0 r1 r2 ns o3 hst hcu h1 h2 h3 h4
    refine ⟨?_, ?_, ?_⟩ <;>
      simp [run, loop, processPage, applyPageOk, pageSt, pageCursor, pageSeen, pageProducts,
        transformPage, postLoopNatural, completeRun, postLoopSignal, throttleAbortResult,
        logTick, logAt, notifyS, tickS, addLogD, putProductsD, putBackupCursorD,
        putStorefrontD, deleteBackupCursorD, markProductsRemovedD, markPartialS,
        getStorefrontD, getBackupCursorD, lookupRecord, putRecord, deleteRecord, okPage,
        noSig, statusOf, hst, hcu, h1, h2, h3, h4]
  · intro est sid db0 clock0 ns e1 r2 r3 hst hcu h2 h3
    refine ⟨?_, ?_, ?_, ?_, ?_⟩ <;>
      simp [run, loop, processPage, applyPageOk, pageSt, pageCursor, pageSeen, pageProducts,
        transformPage, postLoopNatural, completeRun, postLoopSignal, throttleAbortResult,
        logTick, logAt, notifyS, tickS, addLogD, putProductsD, putBackupCursorD,
        putStorefrontD, deleteBackupCursorD, markProductsRemovedD, markPartialS,
        getStorefrontD, getBackupCursorD, lookupRecord, putRecord, deleteRecord, okPage,
        noSig, statusOf, isThrottledResp_ok, hst, hcu, h2, h3]

/-- Claim C4 (witness): the throttle scenarios at concrete inputs — a parseable
3-second hint waits 3000 ms; retry success completes after one delay; double
throttle ends partial with the page-1 checkpoint intact. -/
theorem claim4_witness :
    computeWaitMs (some "3") = 3000 ∧
    (run est0 "s" [] [thrStep (some "3"), okPage [mkNode "1"] false none] emptyDB
      0).outcome = .completed ∧
    (run est0 "s" [] [thrStep (some "3"), okPage [mkNode "1"] false none] emptyDB
      0).st.sleeps = [3000] ∧
    (run est0 "s" [] [okPage [mkNode "1"] true (some "e1"), thrStep (some "2"),
      thrStep none] emptyDB 0).outcome = .throttledOut ∧
    (run est0 "s" [] [okPage [mkNode "1"] true (some "e1"), thrStep (some "2"),
      thrStep none] emptyDB 0).st.sleeps = [500, 2000] ∧
    (getBackupCursorD (run est0 "s" [] [okPage [mkNode "1"] true (some "e1"),
      thrStep (some "2"), thrStep none] emptyDB 0).st.db "s").map
        (fun cu => (cu.cursor, cu.products_fetched)) = some (some "e1", 1) := by
  have ha := claim4_throttle.1 "3" 3 (by decide)
  have hb := claim4_throttle.2.2.2.1 est0 "s" emptyDB 0 ⟨429, ⟨none, none⟩, some "3"⟩
    ⟨200, ⟨some ⟨⟨⟨false, none⟩, [mkNode "1"]⟩⟩, none⟩, none⟩ [mkNode "1"] none
    rfl rfl (by decide) (by decide) rfl rfl
  have hc := claim4_throttle.2.2.2.2 est0 "s" emptyDB 0 [mkNode "1"] "e1"
    ⟨429, ⟨none, none⟩, some "2"⟩ ⟨429, ⟨none, none⟩, none⟩ rfl rfl (by decide) (by decide)
  simp only [thrStep, okPage]
  simp only [okPage] at hc
  refine ⟨by rw [ha]; decide, hb.1, ?_, hc.1, ?_, ?_⟩
  · rw [hb.2.1]
    decide
  · rw [hc.2.1]
    decide
  · rw [hc.2.2.2.1]
    decide

theorem markPartialS_notes (st : RSt) (sid : String) :
    (markPartialS st sid).notes = st.notes := by
  unfold markPartialS
  split <;> rfl

theorem markPartialS_logs (st : RSt) (sid : String) :
    (markPartialS st sid).db.logs = st.db.logs := by
  unfold markPartialS
  split <;> rfl

theorem markPartialS_clock (st : RSt) (sid : String) :
    (markPartialS st sid).clock = st.clock := by
  unfold markPartialS
  split <;> rfl

theorem handleCatch_storefront (sid name msg : String) (cursor : BackupCursor)
    (seen : List String) (st : RSt) (sf0 : Storefront)
    (h : getStorefrontD st.db sid = some sf0) :
    getStorefrontD (handleCatch sid name msg cursor seen st).st.db sid =
      some { sf0 with backup_status := .partialS } := by
  have hm : getStorefrontD (markPartialS st sid).db sid =
      some { sf0 with backup_status := .partialS } := by
    unfold markPartialS
    rw [h]
    have hid : sf0.id = sid := getStorefrontD_key h
    exact getStorefrontD_putStorefrontD_key _ _ hid
  unfold handleCatch
  split
  · exact hm
  · exact hm

theorem handleCatch_quota (sid msg : String) (cursor : BackupCursor)
    (seen : List String) (st : RSt) :
    (handleCatch sid "QuotaExceededError" msg cursor seen st).st.notes =
      st.notes ++ [("Backup stopped",
        "Backup stopped: Storage quota exceeded for " ++ sid ++ ". Open the extension to review.")] ∧
    (handleCatch sid "QuotaExceededError" msg cursor seen st).st.db.logs =
      st.db.logs ++ [⟨sid, toString st.clock, .error, "Storage quota exceeded"⟩] := by
  unfold handleCatch
  rw [if_pos (by simp)]
  constructor
  · show (markPartialS st sid).notes ++ [("Backup stopped",
      "Backup stopped: Storage quota exceeded for " ++ sid ++ ". Open the extension to review.")] =
      st.notes ++ [("Backup stopped",
      "Backup stopped: Storage quota exceeded for " ++ sid ++ ". Open the extension to review.")]
    rw [markPartialS_notes]
  · show (markPartialS st sid).db.logs ++
        [⟨sid, toString (markPartialS st sid).clock, .error, "Storage quota exceeded"⟩] =
      st.db.logs ++ [⟨sid, toString st.clock, .error, "Storage quota exceeded"⟩]
    rw [markPartialS_logs, markPartialS_clock]

theorem handleCatch_nonquota (sid name msg : String) (cursor : BackupCursor)
    (seen : List String) (st : RSt) (h : name ≠ "QuotaExceededError") :
    (handleCatch sid name msg cursor seen st).st.notes = st.notes ∧
    (handleCatch sid name msg cursor seen st).st.db.logs =
      st.db.logs ++ [⟨sid, toString st.clock, .error,
        "Unexpected error during backup: " ++ msg⟩] := by
  unfold handleCatch
  rw [if_neg (by simp [h])]
  constructor
  · exact markPartialS_notes st sid
  · show (markPartialS st sid).db.logs ++
        [⟨sid, toString (markPartialS st sid).clock, .error,
          "Unexpected error during backup: " ++ msg⟩] =
      st.db.logs ++ [⟨sid, toString st.clock, .error,
        "Unexpected error during backup: " ++ msg⟩]
    rw [markPartialS_logs, markPartialS_clock]

theorem loop_throw_outcome (est : List Product → Nat) (sid : String) (sf : Storefront)
    (sigs : List Sig) (hp : (sigs.headD noSig).pausedF = false)
    (hc : (sigs.headD noSig).cancelledF = false) (name msg : String)
    (rest : List FetchStep) (cursor : BackupCursor) (seen : List String) (st : RSt) :
    (loop est sid sf sigs (.throwErr name msg :: rest) cursor seen st).outcome =
      .exceptionOut name msg := by
  simp only [loop]
  rw [if_neg (by simp only [hp, hc]; decide)]
  exact handleCatch_outcome sid name msg cursor seen _

/-- Claim C6: the Engine absorbs every failure raised at an awaited step.
At the loop level (so at any point of the run, with any data already
written): an awaited step that rejects leads to the catch block, which leaves
every stored product exactly as it was (no rollback), marks the storefront
partial, and either — for a storage-quota error — emits the quota-specific
notification plus a "Storage quota exceeded" log entry, or — for any other
error — emits no notification and logs the error message. At the run level:
a rejection makes `run` return normally with the `exceptionOut` outcome,
persisted `backup_status = partial`, the cursor retained, and no entity newly
soft-deleted. -/
theorem claim6_absorbs :
    (∀ (est : List Product → Nat) (sid : String) (sf : Storefront) (sigs : List Sig)
        (name msg : String) (rest : List FetchStep) (cursor : BackupCursor)
        (seen : List String) (st : RSt),
      (sigs.headD noSig).pausedF = false → (sigs.headD noSig).cancelledF = false →
      (loop est sid sf sigs (.throwErr name msg :: rest) cursor seen st).outcome =
        .exceptionOut name msg ∧
      (loop est sid sf sigs (.throwErr name msg :: rest) cursor seen st).st.db.products =
        st.db.products ∧
      (∀ sf0, getStorefrontD st.db sid = some sf0 →
        getStorefrontD
          (loop est sid sf sigs (.throwErr name msg :: rest) cursor seen st).st.db sid =
          some { sf0 with backup_status := .partialS }) ∧
      (name = "QuotaExceededError" →
        (loop est sid sf sigs (.throwErr name msg :: rest) cursor seen st).st.notes =
          st.notes ++ [("Backup stopped",
            "Backup stopped: Storage quota exceeded for " ++ sid ++
              ". Open the extension to review.")] ∧
        (loop est sid sf sigs (.throwErr name msg :: rest) cursor seen st).st.db.logs =
          st.db.logs ++ [⟨sid, toString st.clock, .error, "Storage quota exceeded"⟩]) ∧
      (name ≠ "QuotaExceededError" →
        (loop est sid sf sigs (.throwErr name msg :: rest) cursor seen st).st.notes =
          st.notes ∧
        (loop est sid sf sigs (.throwErr name msg :: rest) cursor seen st).st.db.logs =
          st.db.logs ++ [⟨sid, toString st.clock, .error,
            "Unexpected error during backup: " ++ msg⟩])) ∧
    (∀ (est : List Product → Nat) (sid name msg : String) (rest : List FetchStep)
        (db0 : DB) (clock0 : Nat),
      (run est sid [] (.throwErr name msg :: rest) db0 clock0).outcome =
        .exceptionOut name msg ∧
      statusOf (run est sid [] (.throwErr name msg :: rest) db0 clock0).st.db sid =
        some .partialS ∧
      (getBackupCursorD (run est sid [] (.throwErr name msg :: rest) db0
        clock0).st.db sid).isSome = true ∧
      (∀ p ∈ (run est sid [] (.throwErr name msg :: rest) db0 clock0).st.db.products,
        p.removed_at ≠ none → p ∈ db0.products)) := by
  constructor
  · intro est sid sf sigs name msg rest cursor seen st hp hc
    simp only [loop]
    rw [if_neg (by simp only [hp, hc]; decide)]
    refine ⟨handleCatch_outcome sid name msg cursor seen _,
      handleCatch_products sid name msg cursor seen _, ?_, ?_, ?_⟩
    · intro sf0 h
      exact handleCatch_storefront sid name msg cursor seen _ sf0 h
    · intro hq
      subst hq
      exact handleCatch_quota sid msg cursor seen _
    · intro hq
      exact handleCatch_nonquota sid name msg cursor seen _ hq
  · intro est sid name msg rest db0 clock0
    have hout : (run est sid [] (.throwErr name msg :: rest) db0 clock0).outcome =
        .exceptionOut name msg := by
      simp only [run, tickS]
      cases hsf0 : getStorefrontD db0 sid with
      | none =>
        simp only [getBackupCursorD_putStorefrontD]
        cases hcur0 : getBackupCursorD db0 sid with
        | none => exact loop_throw_outcome est sid _ [] rfl rfl name msg rest _ [] _
        | some c => exact loop_throw_outcome est sid _ [] rfl rfl name msg rest _ [] _
      | some s =>
        simp only [getBackupCursorD_putStorefrontD]
        cases hcur0 : getBackupCursorD db0 sid with
        | none => exact loop_throw_outcome est sid _ [] rfl rfl name msg rest _ [] _
        | some c => exact loop_throw_outcome est sid _ [] rfl rfl name msg rest _ [] _
    obtain ⟨_, c2, _, _, c5⟩ := run_master est sid [] (.throwErr name msg :: rest) db0 clock0
    have herr : errOutcome
        (run est sid [] (.throwErr name msg :: rest) db0 clock0).outcome = true := by
      rw [hout]
      rfl
    have hne : (run est sid [] (.throwErr name msg :: rest) db0 clock0).outcome ≠
        .completed := by
      rw [hout]
      exact fun hx => nomatch hx
    exact ⟨hout, (c5 herr).1, (c5 herr).2, c2 hne⟩

/-- Claim C6 (witness): a quota rejection at the first fetch of a concrete run
— the run returns the exception outcome, the storefront is partial, the quota
notification is recorded, and nothing is soft-deleted. -/
theorem claim6_witness :
    (run est0 "s" [] [.throwErr "QuotaExceededError" "boom"] emptyDB 0).outcome =
      .exceptionOut "QuotaExceededError" "boom" ∧
    statusOf (run est0 "s" [] [.throwErr "QuotaExceededError" "boom"] emptyDB 0).st.db "s" =
      some .partialS ∧
    (getBackupCursorD (run est0 "s" [] [.throwErr "QuotaExceededError" "boom"] emptyDB
      0).st.db "s").isSome = true := by
  have h := claim6_absorbs.2 est0 "s" "QuotaExceededError" "boom" [] emptyDB 0
  exact ⟨h.1, h.2.1, h.2.2.1⟩

end Sniffer
